import Mathlib

/-!
# Verification of the node-marshal C extension

Shallow embedding of the node-marshal Ruby C extension
(`ext/node-marshal/{nodedump.c, nodeinfo.c, base85r.c, nodedump.h, node220.h}`)
and proofs about the claims of its specification.

Modelling conventions:
* C machine words (`VALUE`, `unsigned char`, `unsigned int`) are `Nat` with
  explicit `% 2^w` where wrap-around matters; byte strings are `List Nat`
  of values `< 256`.
* Pointers are `Nat` addresses; the C heap is a structure of association
  lists keyed by address; `NULL` is the address `0`.
* `rb_raise` (and `rb_str_resize` with a negative size, which raises) is
  `Except.error`; a fallible C function returns `Except String α`.
* The embedding models the Ruby 2.2 build of the extension
  (`RUBY_API_VERSION_MAJOR == 2`, hence `USE_RB_ARGS_INFO` defined and
  `RESET_GC_FLAGS` undefined); the Ruby 1.9 flag-clearing `#ifdef` of the
  loader is kept as an explicit boolean parameter.
-/

namespace NodeMarshal

/-! ## Part 0: byte-level helpers (`value_to_bin` / `bin_to_value`, nodedump.c) -/

/-- Model of `value_to_bin` (nodedump.c): converts a `VALUE` to a big-endian byte
sequence with leading zero bytes suppressed (`if (len > 0 || byte != 0)`).
`w` is `sizeof(VALUE)` (8 on the modelled 64-bit platform); the C loop runs
`i = w-1 .. 0` emitting `(val >> (i*8)) & 0xFF`. -/
def value_to_bin (w v : Nat) : List Nat :=
  ((List.range w).reverse.map (fun i => v / 2 ^ (8 * i) % 256)).dropWhile (fun b => b == 0)

/-- Model of `bin_to_value` (nodedump.c): big-endian byte sequence to `VALUE`
(`val |= buf[j] << (i*8)`, first byte most significant; for bytes `< 256`
the accumulated `|=` over disjoint byte positions equals `acc * 256 + b`). -/
def bin_to_value (buf : List Nat) : Nat :=
  buf.foldl (fun acc b => acc * 256 + b) 0

/-! ## Part 1: the modified BASE85 codec (base85r.c)

The C encoder writes into a pre-allocated buffer and finally truncates it to
`out_len` bytes; the model produces the written bytes directly. The C decoder
reads `char_to_val[byte]`, a 128-entry table holding `-1` for the 43
non-alphabet ASCII codes; the model's `char_to_val` returns `none` for every
non-alphabet byte. -/

/-- Model of `val_to_char` (base85r.c): the 85-symbol alphabet, as ASCII codes.
The C source spells it as the string
`ABCDEFGHIJKLMNOPQRSTUVWXYZ abcdefghijklmnopqrstuvwxyz 0123456789`
`!$%&()*-./ :;<=>?@[]^ ,_|` (spaces added here for readability only). -/
def val_to_char : List Nat :=
  (List.range 26).map (fun i => 65 + i) ++    -- 'A'..'Z'
  (List.range 26).map (fun i => 97 + i) ++    -- 'a'..'z'
  (List.range 10).map (fun i => 48 + i) ++    -- '0'..'9'
  [33, 36, 37, 38, 40, 41, 42, 45, 46, 47,    -- ! $ % & ( ) * - . /
   58, 59, 60, 61, 62, 63, 64, 91, 93, 94,    -- : ; < = > ? @ [ ] ^
   44, 95, 124]                               -- , _ |

/-- Model of `char_to_val` (base85r.c): inverse alphabet table; `none` models the
`-1` entries (any byte that is not one of the 85 symbols). -/
def char_to_val (c : Nat) : Option Nat :=
  val_to_char.findIdx? (fun x => x == c)

/-- One 4-byte group encoded as 5 base-85 symbols: digit `i` is
`(val / di_val[i]) % 85` with `di_val = [85^4, 85^3, 85^2, 85, 1]`
(base85r.c, inner `for (i = 0; i < 5; i++)` loop). -/
def enc_group (val : Nat) : List Nat :=
  [val_to_char.getD (val / 52200625 % 85) 0,
   val_to_char.getD (val / 614125 % 85) 0,
   val_to_char.getD (val / 7225 % 85) 0,
   val_to_char.getD (val / 85 % 85) 0,
   val_to_char.getD (val % 85) 0]

/-- Main loop of `base85r_encode`: packs 4 input bytes big-endian
(missing tail bytes stay 0), emits 5 symbols per group, and after a group
ending at input position `pos` with `pos % (4*BASE85R_STR_WIDTH) == 0`
(i.e. `pos % 56 == 0`) appends the line-break pair `"\n "` (bytes 10, 32).
`pos` is the number of input bytes consumed before this call. -/
def base85r_encode_body : List Nat → Nat → List Nat
  | [], _ => []
  | [a], pos =>
      enc_group (a * 16777216) ++ (if (pos + 1) % 56 = 0 then [10, 32] else [])
  | [a, b], pos =>
      enc_group (a * 16777216 + b * 65536) ++ (if (pos + 2) % 56 = 0 then [10, 32] else [])
  | [a, b, c], pos =>
      enc_group (a * 16777216 + b * 65536 + c * 256) ++
      (if (pos + 3) % 56 = 0 then [10, 32] else [])
  | a :: b :: c :: d :: rest, pos =>
      enc_group (a * 16777216 + b * 65536 + c * 256 + d) ++
      (if (pos + 4) % 56 = 0 then [10, 32] else []) ++
      base85r_encode_body rest (pos + 4)

/-- Model of `base85r_encode` (base85r.c): a space (byte 32), then the header symbol
`val_to_char[inp_len % 4]`, then the encoded groups. -/
def base85r_encode (inp : List Nat) : List Nat :=
  32 :: val_to_char.getD (inp.length % 4) 0 :: base85r_encode_body inp 0

/-- Group accumulation of `base85r_decode`: 5 recognized symbols build
`val = d0*85^4 + d1*85^3 + d2*85^2 + d3*85 + d4` in a C `unsigned int`
(hence `% 2^32`), and 4 bytes `(val >> i) & 0xFF`, `i = 24,16,8,0`, are
emitted per group. `none` models the `shift != 0` check failing after the
scan (symbol count not a multiple of 5). -/
def dec_groups : List Nat → Option (List Nat)
  | [] => some []
  | d0 :: d1 :: d2 :: d3 :: d4 :: rest =>
      (dec_groups rest).map (fun out =>
        let val := (d0 * 52200625 + d1 * 614125 + d2 * 7225 + d3 * 85 + d4) % 4294967296
        val / 16777216 % 256 :: val / 65536 % 256 :: val / 256 % 256 :: val % 256 :: out)
  | _ => none

/-- Symbol-level part of `base85r_decode` (base85r.c), a function of the
sequence of recognized symbols alone (the scan loop skips every
non-alphabet byte):
* the first recognized symbol is `tail_len` (rejected when `> 4`), the
  rest are accumulated in groups of 5;
* if no symbol is recognized at all, `tail_len` stays `-1`, so the final
  `out_len -= (4 - tail_len)` drives `out_len` to `-5` and
  `rb_str_resize` raises (modelled as the same format error);
* a non-zero `tail_len` drops the `4 - tail_len` trailing pad bytes; if
  fewer bytes than that were produced, `rb_str_resize` gets a negative
  size and raises. -/
def base85r_decode_core : List Nat → Except String (List Nat)
  | [] => .error "base85r_decode: input string is corrupted"
  | tail_len :: rest =>
    if tail_len > 4 then .error "base85r_decode: input string is corrupted"
    else
      match dec_groups rest with
      | none => .error "base85r_decode: input string is corrupted"
      | some out =>
        if tail_len = 0 then .ok out
        else if out.length < 4 - tail_len then
          .error "base85r_decode: negative string size"
        else .ok (out.take (out.length - (4 - tail_len)))

/-- Model of `base85r_decode` (base85r.c): inputs of length `< 6` other than length 2
are rejected up front (`if (inp_len < 6 && inp_len != 2)`); then the scan
loop processes the recognized symbols (`base85r_decode_core`). -/
def base85r_decode (inp : List Nat) : Except String (List Nat) :=
  if inp.length < 6 ∧ inp.length ≠ 2 then
    .error "base85r_decode: input string is too short"
  else
    base85r_decode_core (inp.filterMap char_to_val)

/-- Model of `InsertNonAlpha t s`: `s` is `t` with arbitrary extra bytes inserted at
arbitrary positions, every inserted byte being outside the 85-symbol
alphabet (e.g. whitespace or line breaks). Spec-side relation used to state
the codec-tolerance claim. -/
inductive InsertNonAlpha : List Nat → List Nat → Prop
  | nil : InsertNonAlpha [] []
  | keep {t s : List Nat} (x : Nat) : InsertNonAlpha t s → InsertNonAlpha (x :: t) (x :: s)
  | ins {t s : List Nat} (x : Nat) : char_to_val x = none →
      InsertNonAlpha t s → InsertNonAlpha t (x :: s)


/-! ## Part 2: node flag word encode/decode (dump_nodes / load_nodes_from_str) -/

/-- Ruby's `T_NODE` type tag (0x1b), OR-ed into the flag word of every
freshly built node. -/
def T_NODE : Nat := 27

/-- Flag-word bytes written by `dump_nodes` (nodedump.c):
`value_to_bin(node->flags >> 5, ptr)`; the shift by 5 is `/ 32`. -/
def dump_flags (flags : Nat) : List Nat :=
  value_to_bin 8 (flags / 32)

/-- Flag-word reconstruction in `load_nodes_from_str` (nodedump.c):
`flags = bin_to_value(...)`, then on Ruby 1.9 builds (`RESET_GC_FLAGS`)
`flags &= ~0x3` (for a loaded value this is `flags / 4 * 4`), and finally
`node->flags = (flags << 5) | T_NODE`. -/
def load_flags (reset_gc : Bool) (bytes : List Nat) : Nat :=
  let flags := bin_to_value bytes
  let flags2 := if reset_gc then flags / 4 * 4 else flags
  (flags2 <<< 5) ||| T_NODE


/-! ## Part 3: leaf/dedup tables (`LeafTableInfo`, nodedump.c) -/

/-- Model of `LeafTableInfo` (nodedump.c): `vals` and `ids` are Ruby hashes
(`key => value` and `key => ordinal`); Ruby hashes preserve insertion order,
so both are modelled as insertion-ordered association lists. `pos` is the
next free ordinal. -/
structure LeafTableInfo (kk vv : Type) where
  vals : List (kk × vv)
  ids : List (kk × Nat)
  pos : Nat
deriving DecidableEq, Repr

/-- Model of `LeafTableInfo_init` (nodedump.c): two empty hashes, `pos = 0`. -/
def LeafTableInfo_init {kk vv : Type} : LeafTableInfo kk vv := ⟨[], [], 0⟩

/-- Model of `rb_hash_aset`: replaces the value in place when the key is present
(keeping the key's position in insertion order), else appends. -/
def hashAset {kk vv : Type} [BEq kk] (l : List (kk × vv)) (k : kk) (v : vv) : List (kk × vv) :=
  if (l.lookup k).isSome then
    l.map (fun p => if p.1 == k then (k, v) else p)
  else l ++ [(k, v)]

/-- Model of `LeafTableInfo_addEntry` (nodedump.c): if the key is absent
(`rb_hash_aref` returns `Qnil`), assign the ordinal `pos`, store
`key => value` and `key => ordinal`, and bump `pos`; otherwise return the
existing ordinal and leave the table untouched. -/
def LeafTableInfo_addEntry {kk vv : Type} [BEq kk] (lti : LeafTableInfo kk vv)
    (key : kk) (value : vv) : Nat × LeafTableInfo kk vv :=
  match lti.ids.lookup key with
  | none =>
      (lti.pos, ⟨hashAset lti.vals key value, hashAset lti.ids key lti.pos, lti.pos + 1⟩)
  | some v_id => (v_id, lti)

/-- A stored symbol value: `rb_id2str` renders the ID as a `String` when it
can, otherwise the raw numeric ID is stored as a Fixnum. -/
inductive SymVal where
  | str (s : String)
  | num (n : Nat)
deriving DecidableEq, Repr

/-- Model of `LeafTableInfo_addIDEntry` (nodedump.c): keys the entry on the raw ID
(`INT2FIX(id)`), storing the host's string rendering when available
(`id2str` models `rb_id2str` plus its `T_STRING` check). -/
def LeafTableInfo_addIDEntry (id2str : Nat → Option String)
    (lti : LeafTableInfo Nat SymVal) (id : Nat) : Nat × LeafTableInfo Nat SymVal :=
  match id2str id with
  | some s => LeafTableInfo_addEntry lti id (SymVal.str s)
  | none => LeafTableInfo_addEntry lti id (SymVal.num id)

/-- Model of `LeafTableInfo_keyToID` (nodedump.c): ordinal of a key; `none` models the
`-1` returned for a missing key. -/
def LeafTableInfo_keyToID {kk vv : Type} [BEq kk] (lti : LeafTableInfo kk vv)
    (key : kk) : Option Nat :=
  lti.ids.lookup key

/-- Model of `LeafTableInfo_getLeavesTable` (nodedump.c): the C builds the array of
keys of `vals` (insertion order) and replaces each key by its hash value,
i.e. the values in ordinal order. -/
def LeafTableInfo_getLeavesTable {kk vv : Type} (lti : LeafTableInfo kk vv) : List vv :=
  lti.vals.map Prod.snd

/-- Spec-side: key list in order of first occurrence, continuing from `L`. -/
def firstSeenFrom {kk : Type} [BEq kk] (L : List kk) (keys : List kk) : List kk :=
  keys.foldl (fun acc k => if acc.contains k then acc else acc ++ [k]) L

/-- Spec-side: distinct keys in order of first occurrence. -/
def firstSeen {kk : Type} [BEq kk] (keys : List kk) : List kk :=
  firstSeenFrom [] keys

/-- Spec-side: position of the first occurrence of `k` in `L`. -/
def ordOf {kk : Type} [BEq kk] : List kk → kk → Option Nat
  | [], _ => none
  | a :: l, k => if a == k then some 0 else (ordOf l k).map (· + 1)

/-- Spec-side: the association list `[(L[0], n), (L[1], n+1), ...]`. -/
def mkIds {kk : Type} : List kk → Nat → List (kk × Nat)
  | [], _ => []
  | a :: l, n => (a, n) :: mkIds l (n + 1)

/-- Run a sequence of `addEntry` insertions starting from the empty table. -/
def runInserts {kk vv : Type} [BEq kk] (seq : List (kk × vv)) : LeafTableInfo kk vv :=
  seq.foldl (fun t p => (LeafTableInfo_addEntry t p.1 p.2).2) LeafTableInfo_init


/-! ## Part 4: node-kind schema (node220.h enum, nodeinfo.c tables) -/

/-- The `enum node_type` of node220.h (Ruby 2.2), transcribed in declaration
order: `NODE_SCOPE = 0`, ..., `NODE_LAST = 106`. -/
def NODE_SCOPE : Nat := 0
def NODE_BLOCK : Nat := 1
def NODE_IF : Nat := 2
def NODE_CASE : Nat := 3
def NODE_WHEN : Nat := 4
def NODE_OPT_N : Nat := 5
def NODE_WHILE : Nat := 6
def NODE_UNTIL : Nat := 7
def NODE_ITER : Nat := 8
def NODE_FOR : Nat := 9
def NODE_BREAK : Nat := 10
def NODE_NEXT : Nat := 11
def NODE_REDO : Nat := 12
def NODE_RETRY : Nat := 13
def NODE_BEGIN : Nat := 14
def NODE_RESCUE : Nat := 15
def NODE_RESBODY : Nat := 16
def NODE_ENSURE : Nat := 17
def NODE_AND : Nat := 18
def NODE_OR : Nat := 19
def NODE_MASGN : Nat := 20
def NODE_LASGN : Nat := 21
def NODE_DASGN : Nat := 22
def NODE_DASGN_CURR : Nat := 23
def NODE_GASGN : Nat := 24
def NODE_IASGN : Nat := 25
def NODE_IASGN2 : Nat := 26
def NODE_CDECL : Nat := 27
def NODE_CVASGN : Nat := 28
def NODE_CVDECL : Nat := 29
def NODE_OP_ASGN1 : Nat := 30
def NODE_OP_ASGN2 : Nat := 31
def NODE_OP_ASGN_AND : Nat := 32
def NODE_OP_ASGN_OR : Nat := 33
def NODE_OP_CDECL : Nat := 34
def NODE_CALL : Nat := 35
def NODE_FCALL : Nat := 36
def NODE_VCALL : Nat := 37
def NODE_SUPER : Nat := 38
def NODE_ZSUPER : Nat := 39
def NODE_ARRAY : Nat := 40
def NODE_ZARRAY : Nat := 41
def NODE_VALUES : Nat := 42
def NODE_HASH : Nat := 43
def NODE_RETURN : Nat := 44
def NODE_YIELD : Nat := 45
def NODE_LVAR : Nat := 46
def NODE_DVAR : Nat := 47
def NODE_GVAR : Nat := 48
def NODE_IVAR : Nat := 49
def NODE_CONST : Nat := 50
def NODE_CVAR : Nat := 51
def NODE_NTH_REF : Nat := 52
def NODE_BACK_REF : Nat := 53
def NODE_MATCH : Nat := 54
def NODE_MATCH2 : Nat := 55
def NODE_MATCH3 : Nat := 56
def NODE_LIT : Nat := 57
def NODE_STR : Nat := 58
def NODE_DSTR : Nat := 59
def NODE_XSTR : Nat := 60
def NODE_DXSTR : Nat := 61
def NODE_EVSTR : Nat := 62
def NODE_DREGX : Nat := 63
def NODE_DREGX_ONCE : Nat := 64
def NODE_ARGS : Nat := 65
def NODE_ARGS_AUX : Nat := 66
def NODE_OPT_ARG : Nat := 67
def NODE_KW_ARG : Nat := 68
def NODE_POSTARG : Nat := 69
def NODE_ARGSCAT : Nat := 70
def NODE_ARGSPUSH : Nat := 71
def NODE_SPLAT : Nat := 72
def NODE_TO_ARY : Nat := 73
def NODE_BLOCK_ARG : Nat := 74
def NODE_BLOCK_PASS : Nat := 75
def NODE_DEFN : Nat := 76
def NODE_DEFS : Nat := 77
def NODE_ALIAS : Nat := 78
def NODE_VALIAS : Nat := 79
def NODE_UNDEF : Nat := 80
def NODE_CLASS : Nat := 81
def NODE_MODULE : Nat := 82
def NODE_SCLASS : Nat := 83
def NODE_COLON2 : Nat := 84
def NODE_COLON3 : Nat := 85
def NODE_CREF : Nat := 86
def NODE_DOT2 : Nat := 87
def NODE_DOT3 : Nat := 88
def NODE_FLIP2 : Nat := 89
def NODE_FLIP3 : Nat := 90
def NODE_SELF : Nat := 91
def NODE_NIL : Nat := 92
def NODE_TRUE : Nat := 93
def NODE_FALSE : Nat := 94
def NODE_ERRINFO : Nat := 95
def NODE_DEFINED : Nat := 96
def NODE_POSTEXE : Nat := 97
def NODE_ALLOCA : Nat := 98
def NODE_BMETHOD : Nat := 99
def NODE_MEMO : Nat := 100
def NODE_IFUNC : Nat := 101
def NODE_DSYM : Nat := 102
def NODE_ATTRASGN : Nat := 103
def NODE_PRELUDE : Nat := 104
def NODE_LAMBDA : Nat := 105
def NODE_LAST : Nat := 106

/-- Child-slot type codes `NT_*` (nodedump.h). `NT_INTEGER` and `NT_LONG`
share the value 5 in the header; only `NT_LONG` is used below. -/
def NT_NULL : Nat := 0
def NT_UNKNOWN : Nat := 1
def NT_NODE : Nat := 2
def NT_VALUE : Nat := 3
def NT_ID : Nat := 4
def NT_LONG : Nat := 5
def NT_ARGS : Nat := 6
def NT_ENTRY : Nat := 7
def NT_IDTABLE : Nat := 8
def NT_MEMORY : Nat := 9

/-- Value-location codes `VL_*` (nodedump.h): which table a stored slot
integer resolves against on load. -/
def VL_RAW : Nat := 0
def VL_NODE : Nat := 1
def VL_ID : Nat := 2
def VL_GVAR : Nat := 3
def VL_IDTABLE : Nat := 4
def VL_ARGS : Nat := 5
def VL_LIT : Nat := 6

/-- Format tag (nodedump.h `NODEMARSHAL_MAGIC`). -/
def NODEMARSHAL_MAGIC : String := "NODEMARSHAL11"


/-- Model of `nodes_child_info` (nodeinfo.c): static schema table, one row per node
kind: `{kind, slot-1 type, slot-2 type, slot-3 type}`. Transcribed in source
order for the Ruby 2.2 build (`USE_RB_ARGS_INFO` defined, so the
`NODE_ARGS` row is `{NT_NULL, NT_VALUE, NT_ARGS}`). The C terminator row
`{-1, 0, 0, 0}` is modelled by the end of the list. -/
def nodes_child_info : List (Nat × Nat × Nat × Nat) := [
  (NODE_BLOCK, NT_NODE, NT_NULL, NT_NODE),
  (NODE_IF, NT_NODE, NT_NODE, NT_NODE),
  (NODE_CASE, NT_NODE, NT_NODE, NT_NULL),
  (NODE_WHEN, NT_NODE, NT_NODE, NT_NODE),
  (NODE_OPT_N, NT_NULL, NT_NODE, NT_LONG),
  (NODE_WHILE, NT_NODE, NT_NODE, NT_LONG),
  (NODE_UNTIL, NT_NODE, NT_NODE, NT_LONG),
  (NODE_ITER, NT_VALUE, NT_NODE, NT_NODE),
  (NODE_FOR, NT_VALUE, NT_NODE, NT_NODE),
  (NODE_BREAK, NT_NODE, NT_NULL, NT_NULL),
  (NODE_NEXT, NT_NODE, NT_NULL, NT_NULL),
  (NODE_RETURN, NT_NODE, NT_NULL, NT_NULL),
  (NODE_REDO, NT_NULL, NT_NULL, NT_NULL),
  (NODE_RETRY, NT_NULL, NT_NULL, NT_NULL),
  (NODE_BEGIN, NT_NULL, NT_NODE, NT_NULL),
  (NODE_RESCUE, NT_NODE, NT_NODE, NT_NODE),
  (NODE_RESBODY, NT_NODE, NT_NODE, NT_NODE),
  (NODE_ENSURE, NT_NODE, NT_NULL, NT_NODE),
  (NODE_AND, NT_NODE, NT_NODE, NT_NULL),
  (NODE_OR, NT_NODE, NT_NODE, NT_NULL),
  (NODE_MASGN, NT_NODE, NT_NODE, NT_NODE),
  (NODE_LASGN, NT_ID, NT_NODE, NT_NULL),
  (NODE_DASGN, NT_ID, NT_NODE, NT_NULL),
  (NODE_DASGN_CURR, NT_ID, NT_NODE, NT_NULL),
  (NODE_IASGN, NT_ID, NT_NODE, NT_NULL),
  (NODE_CVASGN, NT_ID, NT_NODE, NT_NULL),
  (NODE_GASGN, NT_NULL, NT_NODE, NT_ENTRY),
  (NODE_CDECL, NT_ID, NT_NODE, NT_NODE),
  (NODE_OP_ASGN1, NT_NODE, NT_ID, NT_NODE),
  (NODE_OP_ASGN2, NT_NODE, NT_NODE, NT_NODE),
  (NODE_OP_ASGN_AND, NT_NODE, NT_NODE, NT_NULL),
  (NODE_OP_ASGN_OR, NT_NODE, NT_NODE, NT_NULL),
  (NODE_CALL, NT_NODE, NT_ID, NT_NODE),
  (NODE_FCALL, NT_NULL, NT_ID, NT_NODE),
  (NODE_VCALL, NT_NULL, NT_ID, NT_NULL),
  (NODE_SUPER, NT_NULL, NT_NULL, NT_NODE),
  (NODE_ZSUPER, NT_NULL, NT_NULL, NT_NULL),
  (NODE_ARRAY, NT_NODE, NT_LONG, NT_NODE),
  (NODE_VALUES, NT_NODE, NT_LONG, NT_NODE),
  (NODE_ZARRAY, NT_NULL, NT_NULL, NT_NULL),
  (NODE_HASH, NT_NODE, NT_NULL, NT_NULL),
  (NODE_YIELD, NT_NODE, NT_NULL, NT_NULL),
  (NODE_LVAR, NT_ID, NT_NULL, NT_NULL),
  (NODE_DVAR, NT_ID, NT_NULL, NT_NULL),
  (NODE_IVAR, NT_ID, NT_NULL, NT_NULL),
  (NODE_CONST, NT_ID, NT_NULL, NT_NULL),
  (NODE_CVAR, NT_ID, NT_NULL, NT_NULL),
  (NODE_GVAR, NT_NULL, NT_NULL, NT_ENTRY),
  (NODE_NTH_REF, NT_NULL, NT_LONG, NT_NULL),
  (NODE_BACK_REF, NT_NULL, NT_LONG, NT_LONG),
  (NODE_MATCH, NT_VALUE, NT_NULL, NT_NULL),
  (NODE_MATCH2, NT_NODE, NT_NODE, NT_NULL),
  (NODE_MATCH3, NT_NODE, NT_NODE, NT_NULL),
  (NODE_LIT, NT_VALUE, NT_NULL, NT_NULL),
  (NODE_STR, NT_VALUE, NT_NULL, NT_NULL),
  (NODE_XSTR, NT_VALUE, NT_NULL, NT_NULL),
  (NODE_DSTR, NT_VALUE, NT_NULL, NT_NODE),
  (NODE_DXSTR, NT_VALUE, NT_NULL, NT_NODE),
  (NODE_DREGX, NT_VALUE, NT_NULL, NT_NODE),
  (NODE_DREGX_ONCE, NT_VALUE, NT_NULL, NT_NODE),
  (NODE_DSYM, NT_VALUE, NT_NULL, NT_NODE),
  (NODE_EVSTR, NT_NULL, NT_NODE, NT_NULL),
  (NODE_ARGSCAT, NT_NODE, NT_NODE, NT_NULL),
  (NODE_ARGSPUSH, NT_NODE, NT_NODE, NT_NULL),
  (NODE_SPLAT, NT_NODE, NT_NULL, NT_NULL),
  (NODE_BLOCK_PASS, NT_NODE, NT_NODE, NT_NODE),
  (NODE_DEFN, NT_NULL, NT_ID, NT_NODE),
  (NODE_DEFS, NT_NODE, NT_ID, NT_NODE),
  (NODE_ALIAS, NT_NODE, NT_NODE, NT_NULL),
  (NODE_VALIAS, NT_ID, NT_ID, NT_NULL),
  (NODE_UNDEF, NT_NULL, NT_NODE, NT_NULL),
  (NODE_CLASS, NT_NODE, NT_NODE, NT_NODE),
  (NODE_MODULE, NT_NODE, NT_NODE, NT_NULL),
  (NODE_SCLASS, NT_NODE, NT_NODE, NT_NULL),
  (NODE_COLON2, NT_NODE, NT_ID, NT_NULL),
  (NODE_COLON3, NT_NULL, NT_ID, NT_NULL),
  (NODE_DOT2, NT_NODE, NT_NODE, NT_NULL),
  (NODE_DOT3, NT_NODE, NT_NODE, NT_NULL),
  (NODE_FLIP2, NT_NODE, NT_NODE, NT_NULL),
  (NODE_FLIP3, NT_NODE, NT_NODE, NT_NULL),
  (NODE_SELF, NT_NULL, NT_NULL, NT_NULL),
  (NODE_NIL, NT_NULL, NT_NULL, NT_NULL),
  (NODE_TRUE, NT_NULL, NT_NULL, NT_NULL),
  (NODE_FALSE, NT_NULL, NT_NULL, NT_NULL),
  (NODE_ERRINFO, NT_NULL, NT_NULL, NT_NULL),
  (NODE_DEFINED, NT_NODE, NT_NULL, NT_NULL),
  (NODE_POSTEXE, NT_NULL, NT_NODE, NT_NULL),
  (NODE_ATTRASGN, NT_NODE, NT_ID, NT_NODE),
  (NODE_PRELUDE, NT_NODE, NT_NODE, NT_NULL),
  (NODE_LAMBDA, NT_NULL, NT_NODE, NT_NULL),
  (NODE_OPT_ARG, NT_NULL, NT_NODE, NT_NODE),
  (NODE_POSTARG, NT_NODE, NT_NODE, NT_NULL),
  (NODE_ARGS, NT_NULL, NT_VALUE, NT_ARGS),
  (NODE_SCOPE, NT_IDTABLE, NT_NODE, NT_NODE),
  (NODE_ARGS_AUX, NT_LONG, NT_LONG, NT_NODE)]

/-- The hand-maintained reference classification of `check_nodes_child_info`
(nodeinfo.c, `RUBY_API_VERSION_MAJOR == 2` branch, based on Ruby 2.2.1
`node.c`): which of the 3 slots hold a `VALUE`-like reference (`isval`).
`none` models the `default:` case, for which the check is skipped. -/
def ruby22_isval (ty : Nat) : Option (Bool × Bool × Bool) :=
  if [NODE_IF, NODE_FOR, NODE_ITER, NODE_WHEN, NODE_MASGN, NODE_RESCUE,
      NODE_RESBODY, NODE_CLASS, NODE_BLOCK_PASS].contains ty then
    some (true, true, true)
  else if [NODE_BLOCK, NODE_ARRAY, NODE_DSTR, NODE_DXSTR, NODE_DREGX,
      NODE_DREGX_ONCE, NODE_ENSURE, NODE_CALL, NODE_DEFS, NODE_OP_ASGN1].contains ty then
    some (true, false, true)
  else if [NODE_SUPER, NODE_FCALL, NODE_DEFN, NODE_ARGS_AUX].contains ty then
    some (false, false, true)
  else if [NODE_WHILE, NODE_UNTIL, NODE_AND, NODE_OR, NODE_CASE, NODE_SCLASS,
      NODE_DOT2, NODE_DOT3, NODE_FLIP2, NODE_FLIP3, NODE_MATCH2, NODE_MATCH3,
      NODE_OP_ASGN_OR, NODE_OP_ASGN_AND, NODE_MODULE, NODE_ALIAS,
      NODE_ARGSCAT].contains ty then
    some (true, true, false)
  else if [NODE_GASGN, NODE_LASGN, NODE_DASGN, NODE_DASGN_CURR, NODE_IASGN,
      NODE_IASGN2, NODE_CVASGN, NODE_OPT_N, NODE_EVSTR, NODE_UNDEF,
      NODE_POSTEXE].contains ty then
    some (false, true, false)
  else if [NODE_HASH, NODE_LIT, NODE_STR, NODE_XSTR, NODE_DEFINED, NODE_MATCH,
      NODE_RETURN, NODE_BREAK, NODE_NEXT, NODE_YIELD, NODE_COLON2, NODE_SPLAT,
      NODE_TO_ARY].contains ty then
    some (true, false, false)
  else if [NODE_SCOPE, NODE_CDECL, NODE_OPT_ARG].contains ty then
    some (false, true, true)
  else if ty = NODE_ARGS then   -- `/* custom */`
    some (false, true, false)
  else if [NODE_ZARRAY, NODE_ZSUPER, NODE_VCALL, NODE_GVAR, NODE_LVAR,
      NODE_DVAR, NODE_IVAR, NODE_CVAR, NODE_NTH_REF, NODE_BACK_REF, NODE_REDO,
      NODE_RETRY, NODE_SELF, NODE_NIL, NODE_TRUE, NODE_FALSE, NODE_ERRINFO,
      NODE_BLOCK_ARG].contains ty then
    some (false, false, false)
  else
    none

/-- Body of `check_nodes_child_info` (nodeinfo.c) for one table row: derive
`isval_tbl` (`NT_NODE` or `NT_VALUE` slots) from the row and compare it with
the independent reference classification; a mismatch raises. (The function's
initial `strcmp(ruby_node_name(NODE_LAMBDA), "NODE_LAMBDA")` guard checks
that the host enum agrees with the compiled-in one; the model's host enum
*is* the transcription of node220.h, under which that guard passes.) -/
def check_row (row : Nat × Nat × Nat × Nat) : Except String Unit :=
  match ruby22_isval row.1 with
  | none => .ok ()
  | some iv =>
    let tbl := (row.2.1 == NT_NODE || row.2.1 == NT_VALUE,
                row.2.2.1 == NT_NODE || row.2.2.1 == NT_VALUE,
                row.2.2.2 == NT_NODE || row.2.2.2 == NT_VALUE)
    if iv = tbl then .ok ()
    else .error "Bad node entry in the initial table"

/-- Model of `check_nodes_child_info pos` (nodeinfo.c): check the table row at `pos`. -/
def check_nodes_child_info (pos : Nat) : Except String Unit :=
  match nodes_child_info.get? pos with
  | none => .ok ()
  | some row => check_row row

/-- Checking loop of `init_nodes_table` (nodeinfo.c): every row is checked
before the lookup table is filled; the first failing row aborts. -/
def init_nodes_table_checks : Except String Unit :=
  (List.range nodes_child_info.length).foldl
    (fun acc pos => acc.bind (fun _ => check_nodes_child_info pos)) (.ok ())

/-- The filled `nodes_ctbl` lookup (nodeinfo.c `init_nodes_table`): every
kind starts as `NT_UNKNOWN` and each table row overwrites its kind's three
slots (later rows win, matching the sequential fill loop). -/
def nodes_ctbl : Nat → Nat × Nat × Nat :=
  nodes_child_info.foldl
    (fun f row => fun ty => if ty = row.1 then (row.2.1, row.2.2.1, row.2.2.2) else f ty)
    (fun _ => (NT_UNKNOWN, NT_UNKNOWN, NT_UNKNOWN))



/-! ## Part 5: the encoder (count_num_of_nodes / dump_nodes / NODEInfo_toHash)

The host heap is modelled explicitly: `RNode` is Ruby 2.2's `struct RNode`
(flag word plus the three union slots, each one machine word), and `Heap`
maps addresses to the node structs, ID arrays, `rb_args_info` structs and
`rb_global_entry` structs the encoder dereferences. Address `0` is `NULL`. -/

/-- Model of `struct RNode` (node220.h): flag word and the raw words of the three
slot unions (`u1`, `u2`, `u3`); `nd_reserved` is never encoded. -/
structure RNode where
  flags : Nat
  u1 : Nat
  u2 : Nat
  u3 : Nat
deriving DecidableEq, Repr

/-- Model of `nd_type` (node220.h): `(flags & (0x7f << 8)) >> 8`. -/
def nd_type (n : RNode) : Nat := n.flags / 256 % 128

/-- Model of `struct rb_args_info` (node220.h): five node pointers, two counts and
three IDs. -/
structure ArgsInfo where
  pre_init : Nat
  post_init : Nat
  pre_args_num : Nat
  post_args_num : Nat
  first_post_arg : Nat
  rest_arg : Nat
  block_arg : Nat
  kw_args : Nat
  kw_rest_arg : Nat
  opt_args : Nat
deriving DecidableEq, Repr

/-- The encoder's view of host memory: association lists keyed by address
for each kind of struct it dereferences, plus the host symbol table
(`rb_id2str`, returning `none` where the ID has no string rendering). -/
structure Heap where
  nodes : List (Nat × RNode)
  idtbls : List (Nat × List Nat)
  argsinfos : List (Nat × ArgsInfo)
  gentries : List (Nat × Nat)
  id2str : List (Nat × String)
deriving DecidableEq, Repr

/-- Dereference a node pointer; `none` models a word that is not a node
(the C checks `TYPE(...) != T_NODE`). -/
def heapNode (heap : Heap) (adr : Nat) : Option RNode := heap.nodes.lookup adr

/-- Model of `nd_type` of the node behind an address, when there is one. -/
def parentType (heap : Heap) (adr : Nat) : Option Nat := (heapNode heap adr).map nd_type

/-- The ID array behind a `NODE_SCOPE` table pointer: a `NULL` pointer is an
empty table (`int size = (node->u1.value) ? *idtbl++ : 0`). -/
def idtableAt (heap : Heap) (adr : Nat) : Option (List Nat) :=
  if adr = 0 then some [] else heap.idtbls.lookup adr

/-- Model of `rb_id2str` plus its `T_STRING` check, as a host-supplied table. -/
def hostId2str (heap : Heap) : Nat → Option String := fun id => heap.id2str.lookup id

/-- Ruby 2.x special constants (64-bit): `Qfalse`, `Qtrue`, `Qnil`, `Qundef`. -/
def Qfalse : Nat := 0
def Qtrue : Nat := 20
def Qnil : Nat := 8
def Qundef : Nat := 52

/-- Model of `is_value_in_heap` (nodedump.c): special constants, Fixnums (tag bit 1)
and Flonums (tag bits `10`) live inside the `VALUE` word and need no
literals-table entry. -/
def is_value_in_heap (v : Nat) : Bool :=
  !(v == Qfalse || v == Qtrue || v == Qnil || v == Qundef || v % 2 == 1 || v % 4 == 2)

/-- One element of an args-table entry (`varg` in `count_num_of_nodes`):
the C array mixes hex-string-rendered addresses and Fixnums. -/
inductive AEV where
  | adr (a : Nat)
  | num (n : Nat)
deriving DecidableEq, Repr

/-- Model of `NODEInfo` (nodedump.c): the six dedup tables filled by the walker.
Keys are the raw `VALUE` words (`value_to_str` renders them injectively as
hex strings in the C; the model keys on the word itself). -/
structure NODEInfo where
  syms : LeafTableInfo Nat SymVal
  lits : LeafTableInfo Nat Nat
  idtabs : LeafTableInfo Nat (List Nat)
  args : LeafTableInfo Nat (List AEV)
  gentries : LeafTableInfo Nat Nat
  nodes : LeafTableInfo Nat Nat
deriving DecidableEq, Repr

/-- Model of `NODEInfo_init` (nodedump.c). -/
def NODEInfo_init : NODEInfo :=
  ⟨LeafTableInfo_init, LeafTableInfo_init, LeafTableInfo_init,
   LeafTableInfo_init, LeafTableInfo_init, LeafTableInfo_init⟩

/-- Model of `NODEInfo_addValue` (nodedump.c): heap-resident values are interned in
the literals table, keyed on the value. -/
def NODEInfo_addValue (info : NODEInfo) (value : Nat) : NODEInfo :=
  if is_value_in_heap value then
    { info with lits := (LeafTableInfo_addEntry info.lits value value).2 }
  else info

/-- Model of `count_num_of_nodes` (nodedump.c): the walker. Registers the node, its
symbols, literals, ID tables, args records and global entries in `info`,
and returns the number of traversal visits (`num = 1 +` the children's
counts -- NOT deduplicated, unlike the nodes table itself). The C recursion
is unbounded; `fuel` is a modelling artifact whose exhaustion is an error
distinct from every C error, unreachable whenever the C traversal
terminates (pick fuel above the visit count). -/
def count_num_of_nodes : Nat → Heap → Nat → Nat → NODEInfo → Except String (Nat × NODEInfo)
  | 0, _, _, _, _ => .error "count_num_of_nodes: out of fuel"
  | fuel + 1, heap, nodeAdr, parentAdr, info =>
    if nodeAdr = 0 then .ok (0, info)
    else
      match heapNode heap nodeAdr with
      | none => .error "count_num_of_nodes: child node is not a node"
      | some node => do
        let t := nd_type node
        let ut := nodes_ctbl t
        let ut := if t = NODE_OP_ASGN2 ∧ parentType heap parentAdr = some NODE_OP_ASGN2 then
            (NT_ID, NT_ID, NT_ID)
          else ut
        let ut := if t = NODE_ARGS_AUX then
            (if node.u1 = 0 then NT_NULL else NT_ID,
             if node.u2 = 0 then NT_NULL else
               if parentType heap parentAdr = some NODE_ARGS_AUX then NT_LONG else NT_ID,
             if node.u3 = 0 then NT_NULL else NT_NODE)
          else ut
        let ut := if t = NODE_ATTRASGN ∧ node.u1 = 1 then (NT_LONG, ut.2.1, ut.2.2) else ut
        if ut.1 = NT_UNKNOWN ∨ ut.2.1 = NT_UNKNOWN ∨ ut.2.2 = NT_UNKNOWN then
          throw "Cannot interpret node"
        else do
        let info := { info with nodes := (LeafTableInfo_addEntry info.nodes nodeAdr nodeAdr).2 }
        -- child 1
        let r1 ←
          if ut.1 = NT_NODE then
            count_num_of_nodes fuel heap node.u1 nodeAdr info
          else if ut.1 = NT_ID then
            pure (0, { info with
              syms := (LeafTableInfo_addIDEntry (hostId2str heap) info.syms node.u1).2 })
          else if ut.1 = NT_VALUE then
            if (heapNode heap node.u1).isSome then
              throw "NODE instead of VALUE in child 1"
            else pure (0, NODEInfo_addValue info node.u1)
          else if ut.1 = NT_IDTABLE then
            match idtableAt heap node.u1 with
            | none => throw "count_num_of_nodes: invalid idtable pointer"
            | some ids =>
              pure (0, { info with
                syms := ids.foldl
                  (fun s sym => (LeafTableInfo_addIDEntry (hostId2str heap) s sym).2) info.syms,
                idtabs := (LeafTableInfo_addEntry info.idtabs node.u1 ids).2 })
          else if ut.1 = NT_LONG ∨ ut.1 = NT_NULL then pure (0, info)
          else throw "1!"
        -- child 2
        let r2 ←
          if ut.2.1 = NT_NODE then
            count_num_of_nodes fuel heap node.u2 nodeAdr r1.2
          else if ut.2.1 = NT_ID then
            pure (0, { r1.2 with
              syms := (LeafTableInfo_addIDEntry (hostId2str heap) r1.2.syms node.u2).2 })
          else if ut.2.1 = NT_VALUE then
            if (heapNode heap node.u2).isSome then
              throw "NODE instead of VALUE in child 2"
            else pure (0, NODEInfo_addValue r1.2 node.u2)
          else if ut.2.1 = NT_LONG ∨ ut.2.1 = NT_NULL then pure (0, r1.2)
          else throw "2!"
        -- child 3
        let r3 ←
          if ut.2.2 = NT_NODE then
            count_num_of_nodes fuel heap node.u3 nodeAdr r2.2
          else if ut.2.2 = NT_ID then
            pure (0, { r2.2 with
              syms := (LeafTableInfo_addIDEntry (hostId2str heap) r2.2.syms node.u3).2 })
          else if ut.2.2 = NT_ARGS then
            match heap.argsinfos.lookup node.u3 with
            | none => throw "count_num_of_nodes: invalid args pointer"
            | some ai => do
              let s1 ← count_num_of_nodes fuel heap ai.pre_init nodeAdr r2.2
              let s2 ← count_num_of_nodes fuel heap ai.post_init nodeAdr s1.2
              let s3 ← count_num_of_nodes fuel heap ai.kw_args nodeAdr s2.2
              let s4 ← count_num_of_nodes fuel heap ai.kw_rest_arg nodeAdr s3.2
              let s5 ← count_num_of_nodes fuel heap ai.opt_args nodeAdr s4.2
              let i5 := s5.2
              let i5 := if ai.first_post_arg ≠ 0 then
                  { i5 with syms := (LeafTableInfo_addIDEntry (hostId2str heap) i5.syms
                      ai.first_post_arg).2 }
                else i5
              let i5 := if ai.rest_arg ≠ 0 then
                  { i5 with syms := (LeafTableInfo_addIDEntry (hostId2str heap) i5.syms
                      ai.rest_arg).2 }
                else i5
              let i5 := if ai.block_arg ≠ 0 then
                  { i5 with syms := (LeafTableInfo_addIDEntry (hostId2str heap) i5.syms
                      ai.block_arg).2 }
                else i5
              let varg : List AEV :=
                [.adr ai.pre_init, .adr ai.post_init, .num ai.pre_args_num,
                 .num ai.post_args_num, .num ai.first_post_arg, .num ai.rest_arg,
                 .num ai.block_arg, .adr ai.kw_args, .adr ai.kw_rest_arg, .adr ai.opt_args]
              pure (s1.1 + s2.1 + s3.1 + s4.1 + s5.1,
                { i5 with args := (LeafTableInfo_addEntry i5.args node.u3 varg).2 })
          else if ut.2.2 = NT_ENTRY then
            match heap.gentries.lookup node.u3 with
            | none => throw "count_num_of_nodes: invalid global entry pointer"
            | some gsym =>
              let p := LeafTableInfo_addIDEntry (hostId2str heap) r2.2.syms gsym
              pure (0, { r2.2 with
                syms := p.2
                gentries := (LeafTableInfo_addEntry r2.2.gentries node.u3 p.1).2 })
          else if ut.2.2 = NT_LONG ∨ ut.2.2 = NT_NULL then pure (0, r2.2)
          else throw "Invalid child node 3"
        return (1 + r1.1 + r2.1 + r3.1, r3.2)

/-- Model of `dump_node_value` (nodedump.c): encode one slot. Returns the record tag
byte (`VL_*` code in the low nibble, `value_to_bin` byte count in the high
nibble: `DUMP_RAW_VALUE(vl, v) = vl | (value_to_bin(v) << 4)`) and the
payload bytes. The ENTRY/ARGS/IDTABLE arm of the C dispatches through
`NODEInfo_getTableByID` and a switch; the model spells the three cases out. -/
def dump_node_value (info : NODEInfo) (heap : Heap) (node : RNode)
    (ty : Nat) (value : Nat) (child_id : Nat) : Except String (Nat × List Nat) :=
  if ty = NT_NULL ∨ ty = NT_LONG then
    let b := value_to_bin 8 value
    .ok (VL_RAW + 16 * b.length, b)
  else if ty = NT_NODE then
    if value = 0 then
      -- Variant a: empty node
      let b := value_to_bin 8 value
      .ok (VL_RAW + 16 * b.length, b)
    else if nd_type node = NODE_ATTRASGN ∧ value = 1 ∧ child_id = 1 then
      -- Special case: "self"
      let b := value_to_bin 8 value
      .ok (VL_RAW + 16 * b.length, b)
    else if (heapNode heap value).isNone then
      .error "dump_node_value: child node is not a node"
    else
      match LeafTableInfo_keyToID info.nodes value with
      | none => .error "dump_node_value: child node not found"
      | some id =>
        let b := value_to_bin 8 id
        .ok (VL_NODE + 16 * b.length, b)
  else if ty = NT_VALUE then
    if !(is_value_in_heap value) then
      let b := value_to_bin 8 value
      .ok (VL_RAW + 16 * b.length, b)
    else
      match LeafTableInfo_keyToID info.lits value with
      | none => .error "Cannot find literal"
      | some id =>
        let b := value_to_bin 8 id
        .ok (VL_LIT + 16 * b.length, b)
  else if ty = NT_ID then
    match LeafTableInfo_keyToID info.syms value with
    | none => .error "Cannot find symbol ID"
    | some id =>
      let b := value_to_bin 8 id
      .ok (VL_ID + 16 * b.length, b)
  else if ty = NT_ENTRY then
    match LeafTableInfo_keyToID info.gentries value with
    | none => .error "Cannot find some entry"
    | some id =>
      let b := value_to_bin 8 id
      .ok (VL_GVAR + 16 * b.length, b)
  else if ty = NT_IDTABLE then
    match LeafTableInfo_keyToID info.idtabs value with
    | none => .error "Cannot find some entry"
    | some id =>
      let b := value_to_bin 8 id
      .ok (VL_IDTABLE + 16 * b.length, b)
  else if ty = NT_ARGS then
    match LeafTableInfo_keyToID info.args value with
    | none => .error "Cannot find some entry"
    | some id =>
      let b := value_to_bin 8 id
      .ok (VL_ARGS + 16 * b.length, b)
  else .error "Unknown child node type"

/-- Model of `dump_nodes` (nodedump.c): one record per nodes-table entry, in ordinal
order; a record is the 4 tag bytes (three slot tags and the flag-word byte
count), the flag-word bytes, then the three payloads. The final
`rb_str_resize(nodes_bin, (ptr - bin) + 1)` keeps one extra byte of the
zero-initialized buffer, so the byte string ends with a stray `0`. -/
def dump_nodes (info : NODEInfo) (heap : Heap) : Except String (List Nat) := do
  let keys := info.nodes.vals.map Prod.fst
  let recs ← keys.foldlM (fun (acc : List Nat) adr => do
      match heapNode heap adr with
      | none => throw "dump_nodes: nodes table entry is not a node"
      | some node =>
        let nt := nd_type node
        let flagsBytes := dump_flags node.flags
        let ut := nodes_ctbl nt
        let ut := if nt = NODE_OP_ASGN2 ∧ (LeafTableInfo_keyToID info.syms node.u1).isSome then
            (NT_ID, NT_ID, NT_ID)
          else ut
        let ut := if nt = NODE_ARGS_AUX then
            (if node.u1 = 0 then NT_NULL else NT_ID,
             if node.u2 = 0 then NT_NULL else
               if (LeafTableInfo_keyToID info.syms node.u2).isSome then NT_ID else NT_LONG,
             if node.u3 = 0 then NT_NULL else NT_NODE)
          else ut
        let r1 ← dump_node_value info heap node ut.1 node.u1 1
        let r2 ← dump_node_value info heap node ut.2.1 node.u2 2
        let r3 ← dump_node_value info heap node ut.2.2 node.u3 3
        pure (acc ++ [r1.1, r2.1, r3.1, flagsBytes.length] ++ flagsBytes ++ r1.2 ++ r2.2 ++ r3.2))
    []
  return recs ++ [0]

/-- The running host environment: the two fingerprint constants plus the
host services the loader uses (`rb_intern`, `rb_global_entry`). -/
structure RubyEnv where
  platform : String
  version : String
  intern : String → Nat
  global_entry : Nat → Nat

/-- The persisted container (the Ruby hash built by `m_nodedump_to_hash` /
consumed by `m_nodedump_from_memory`). `none` models a missing hash field
(`rb_hash_aref` returning `Qnil`) or a field of the wrong Ruby type. -/
structure Container where
  magic : Option String
  ruby_platform : Option String
  ruby_version : Option String
  literals : Option (List Nat)
  symbols : Option (List SymVal)
  global_entries : Option (List Nat)
  id_tables : Option (List (List Nat))
  args : Option (List (List Int))
  nodes : Option (List Nat)
  num_of_nodes : Option Nat
  nodename : Option String
  filename : Option String
  filepath : Option String
deriving Repr

/-- Model of `NODEInfo_toHash` (nodedump.c): assemble the container. Fingerprint
fields record the running environment; `id_tables` members and `args`
cross-references are replaced by table ordinals (`-1` for `NULL`/zero);
`nodes` is the `dump_nodes` byte string. -/
def NODEInfo_toHash (env : RubyEnv) (heap : Heap) (info : NODEInfo) :
    Except String Container := do
  let idtabs ← (LeafTableInfo_getLeavesTable info.idtabs).mapM (fun tbl =>
    tbl.mapM (fun sym =>
      match LeafTableInfo_keyToID info.syms sym with
      | none => throw "Cannot find the symbol ID"
      | some id => pure id))
  let args ← (LeafTableInfo_getLeavesTable info.args).mapM (fun entry => do
    if entry.length ≠ 10 then throw "Corrupted args entry"
    else
      entry.enum.mapM (fun p => do
        let ind := p.1
        if ind = 0 ∨ ind = 1 ∨ ind = 7 ∨ ind = 8 ∨ ind = 9 then
          -- node addresses, rendered as hex strings in the C ("0" for NULL)
          match p.2 with
          | .adr a =>
            if a = 0 then pure (-1 : Int)
            else
              match LeafTableInfo_keyToID info.nodes a with
              | none => throw "Unknown NODE in args tables"
              | some id => pure (Int.ofNat id)
          | .num _ => throw "Corrupted args entry"
        else if ind = 4 ∨ ind = 5 ∨ ind = 6 then
          -- symbol IDs
          match p.2 with
          | .num n =>
            if n ≠ 0 then
              match LeafTableInfo_keyToID info.syms n with
              | none => throw "Unknown symbolic ID in args tables"
              | some id => pure (Int.ofNat id)
            else pure (-1 : Int)
          | .adr _ => throw "Corrupted args entry"
        else
          -- pre_args_num / post_args_num pass through
          match p.2 with
          | .num n => pure (Int.ofNat n)
          | .adr _ => throw "Corrupted args entry"))
  let nodesBin ← dump_nodes info heap
  return {
    magic := some NODEMARSHAL_MAGIC
    ruby_platform := some env.platform
    ruby_version := some env.version
    literals := some (LeafTableInfo_getLeavesTable info.lits)
    symbols := some (LeafTableInfo_getLeavesTable info.syms)
    global_entries := some (LeafTableInfo_getLeavesTable info.gentries)
    id_tables := some idtabs
    args := some args
    nodes := some nodesBin
    num_of_nodes := none
    nodename := none
    filename := none
    filepath := none }

/-- Model of `m_nodedump_to_hash` (nodedump.c): run the walker from the root (the C
passes the root as its own parent), assemble the container, and store
`num_of_nodes` (the walker's visit count) and the three descriptive
strings. -/
def m_nodedump_to_hash (env : RubyEnv) (heap : Heap) (rootAdr fuel : Nat)
    (nodename filename filepath : Option String) : Except String Container := do
  let r ← count_num_of_nodes fuel heap rootAdr rootAdr NODEInfo_init
  let c ← NODEInfo_toHash env heap r.2
  return { c with
    num_of_nodes := some r.1
    nodename := nodename
    filename := filename
    filepath := filepath }


/-! ## Part 6: the decoder (`m_nodedump_from_memory` and helpers)

Placeholder addressing: `resolve_nodes_ords` allocates `num_of_nodes` fresh
placeholder nodes; the model represents the address of placeholder `i` by
the ordinal `i` itself (the C uses the malloc'ed pointers), and a decoded
slot word holding a node/ID-table/args pointer stores that ordinal. The
allocation trace pairs each result with the list of `ALLOC`/`NEW_NODE`
events performed, in order, so that "fails before any allocation" is a
statement about the trace. -/

/-- A decoded `rb_args_info` (resolve_args_ords): node pointers become
placeholder ordinals (`0` for a `-1`/`NULL` entry), IDs are resolved
against the symbol table (`0` for `-1`). -/
structure RArgsInfo where
  pre_init : Nat
  post_init : Nat
  pre_args_num : Int
  post_args_num : Int
  first_post_arg : Nat
  rest_arg : Nat
  block_arg : Nat
  kw_args : Nat
  kw_rest_arg : Nat
  opt_args : Nat
deriving DecidableEq, Repr

/-- Model of `NODEObjAddresses` (nodedump.c): the resolved tables of one decode. -/
structure NODEObjAddresses where
  syms_adr : List Nat
  lits_adr : List Nat
  gvars_adr : List Nat
  idtbls_adr : List (List Nat)
  args_adr : List RArgsInfo
  nodes_adr : List RNode
deriving Repr

/-- A result paired with the allocation events that produced it. -/
def TraceRes (α : Type) : Type := List String × Except String α

/-- Sequencing for `TraceRes`: an error keeps the events so far. -/
def tbind {α β : Type} (x : TraceRes α) (f : α → TraceRes β) : TraceRes β :=
  match x with
  | (tr, .error e) => (tr, .error e)
  | (tr, .ok a) =>
    match f a with
    | (tr2, r) => (tr ++ tr2, r)

/-- Model of `resolve_syms_ords` (nodedump.c): `ALLOC_N` the ID array, then intern
each string symbol (`rb_intern`) and take numeric symbols as raw IDs. (The
"Symbols table is corrupted" arm for elements of other Ruby types cannot
fire in the typed model.) -/
def resolve_syms_ords (env : RubyEnv) (c : Container) : TraceRes (List Nat) :=
  match c.symbols with
  | none => ([], .error "Cannot find symbols table")
  | some tbl =>
    (["ALLOC syms_adr"],
     .ok (tbl.map (fun sv =>
       match sv with
       | .str s => env.intern s
       | .num n => n)))

/-- Model of `resolve_lits_ords` (nodedump.c): borrows the literals array in place --
no allocation. -/
def resolve_lits_ords (c : Container) : TraceRes (List Nat) :=
  match c.literals with
  | none => ([], .error "Cannot find literals table")
  | some tbl => ([], .ok tbl)

/-- Model of `resolve_gvars_ords` (nodedump.c): `ALLOC_N` the entry array and resolve
each stored symbol ordinal through `rb_global_entry`. (The C indexes
`syms_adr[ind]` without a range check; the model reads out-of-range
ordinals as 0.) -/
def resolve_gvars_ords (env : RubyEnv) (c : Container) (syms_adr : List Nat) :
    TraceRes (List Nat) :=
  match c.global_entries with
  | none => ([], .error "Cannot find global entries table")
  | some tbl =>
    (["ALLOC gvars_adr"],
     .ok (tbl.map (fun ind => env.global_entry (syms_adr.getD ind 0))))

/-- Model of `resolve_idtbls_ords` (nodedump.c): `ALLOC_N` the table-of-tables and
resolve each member ordinal to a live ID (again unchecked in the C). The C
stores `NULL` for an empty table and a size-prefixed ID array otherwise;
the model keeps the member list itself. -/
def resolve_idtbls_ords (c : Container) (syms_adr : List Nat) :
    TraceRes (List (List Nat)) :=
  match c.id_tables with
  | none => ([], .error "Cannot find id_tables entries")
  | some tbl =>
    (["ALLOC idtbls_adr"],
     .ok (tbl.map (fun idtbl => idtbl.map (fun ind => syms_adr.getD ind 0))))

/-- Model of `resolve_nodes_ords` (nodedump.c): check the `nodes` byte string is
present, then `ALLOC_N` the pointer array and batch-create `num_of_nodes`
placeholder nodes (`NEW_NODE(0, 0, 0, 0)`, carrying just the `T_NODE`
tag). -/
def resolve_nodes_ords (c : Container) (num_of_nodes : Nat) : TraceRes (List RNode) :=
  match c.nodes with
  | none => ([], .error "Cannot find nodes entries")
  | some _ =>
    (["ALLOC nodes_adr placeholders"],
     .ok (List.replicate num_of_nodes ⟨T_NODE, 0, 0, 0⟩))

/-- Model of `resolve_args_ords` (nodedump.c): `ALLOC_N` the struct array; for each
10-element entry resolve the five node ordinals (range-checked, `-1` is
`NULL`) and the three symbol ordinals (range-checked, `-1` is ID 0). -/
def resolve_args_ords (c : Container) (syms_adr : List Nat) (nodes_len : Nat) :
    TraceRes (List RArgsInfo) :=
  match c.args with
  | none => ([], .error "Cannot find args entries table")
  | some tbl =>
    (["ALLOC args_adr"],
     tbl.mapM (fun e =>
       if e.length = 10 then
         let nodeOrd : Int → Except String Nat := fun ord =>
           if ord < -1 ∨ ord ≥ Int.ofNat nodes_len then .error "Invalid node ordinal"
           else if ord = -1 then .ok 0 else .ok ord.toNat
         let symOrd : Int → Except String Nat := fun ord =>
           if ord < -1 ∨ ord ≥ Int.ofNat syms_adr.length then
             .error "Invalid symbol ID ordinal"
           else if ord = -1 then .ok 0 else .ok (syms_adr.getD ord.toNat 0)
         do
           let pre_init ← nodeOrd (e.getD 0 0)
           let post_init ← nodeOrd (e.getD 1 0)
           let kw_args ← nodeOrd (e.getD 7 0)
           let kw_rest_arg ← nodeOrd (e.getD 8 0)
           let opt_args ← nodeOrd (e.getD 9 0)
           let first_post_arg ← symOrd (e.getD 4 0)
           let rest_arg ← symOrd (e.getD 5 0)
           let block_arg ← symOrd (e.getD 6 0)
           pure { pre_init := pre_init, post_init := post_init,
                  pre_args_num := e.getD 2 0, post_args_num := e.getD 3 0,
                  first_post_arg := first_post_arg, rest_arg := rest_arg,
                  block_arg := block_arg, kw_args := kw_args,
                  kw_rest_arg := kw_rest_arg, opt_args := opt_args }
       else .error "args entry is corrupted"))

/-- The per-slot dispatch switch of `load_nodes_from_str` (nodedump.c):
`rtype` is the low nibble of a tag byte, `u` the raw slot integer. Every
table code range-checks its ordinal and raises on overflow; `VL_RAW`
passes `u` through unchanged; `VL_NODE` additionally re-checks that the
resolved placeholder is a node (`TYPE(u[j]) != T_NODE`, modelled by the
`isNode` predicate on placeholder ordinals). For the value-like tables
(`VL_ID`, `VL_GVAR`, `VL_LIT`) the resolved entry itself is returned; for
the pointer tables (`VL_NODE`, `VL_IDTABLE`, `VL_ARGS`) the C stores the
resolved pointer, which the model represents by the checked ordinal. -/
def resolve_slot (relocs : NODEObjAddresses) (isNode : Nat → Bool) (rtype u : Nat) :
    Except String Nat :=
  if rtype = VL_RAW then .ok u
  else if rtype = VL_NODE then
    if u ≥ relocs.nodes_adr.length then .error "Cannot resolve VL_NODE entry"
    else if !(isNode u) then .error "load_nodes_from_str: nodes memory corrupted"
    else .ok u
  else if rtype = VL_ID then
    if u ≥ relocs.syms_adr.length then .error "Cannot resolve VL_ID entry"
    else .ok (relocs.syms_adr.getD u 0)
  else if rtype = VL_GVAR then
    if u ≥ relocs.gvars_adr.length then .error "Cannot resolve VL_GVAR entry"
    else .ok (relocs.gvars_adr.getD u 0)
  else if rtype = VL_IDTABLE then
    if u ≥ relocs.idtbls_adr.length then .error "Cannot resolve VL_IDTABLE entry"
    else .ok u
  else if rtype = VL_ARGS then
    if u ≥ relocs.args_adr.length then .error "Cannot resolve VL_ARGS entry"
    else .ok u
  else if rtype = VL_LIT then
    if u ≥ relocs.lits_adr.length then .error "Cannot resolve VL_LIT entry"
    else .ok (relocs.lits_adr.getD u 0)
  else .error "Unknown RTYPE"

/-- Record loop of `load_nodes_from_str` (nodedump.c): for each of the
remaining `i` records, read the 4 tag bytes, the flag-word bytes
(`rtypes[3]` of them) and the three payloads (high-nibble lengths); then
check the read position against the byte string length (bytes past the end
read as garbage in the C -- 0 in the model -- but the position check fires
before they become observable); then resolve the three slots and fill the
node. -/
def load_records (reset_gc : Bool) (bin : List Nat) (relocs : NODEObjAddresses)
    (isNode : Nat → Bool) : Nat → Nat → List RNode → Except String (List RNode)
  | 0, _, acc => .ok acc
  | i + 1, pos, acc => do
    let t0 := bin.getD pos 0
    let t1 := bin.getD (pos + 1) 0
    let t2 := bin.getD (pos + 2) 0
    let t3 := bin.getD (pos + 3) 0
    let l1 := t0 / 16
    let l2 := t1 / 16
    let l3 := t2 / 16
    let fpos := pos + 4
    let flagsBytes := (bin.drop fpos).take t3
    let u1 := bin_to_value ((bin.drop (fpos + t3)).take l1)
    let u2 := bin_to_value ((bin.drop (fpos + t3 + l1)).take l2)
    let u3 := bin_to_value ((bin.drop (fpos + t3 + l1 + l2)).take l3)
    let endPos := fpos + t3 + l1 + l2 + l3
    if endPos > bin.length then throw "Nodes binary dump is too short"
    else do
      let v1 ← resolve_slot relocs isNode (t0 % 16) u1
      let v2 ← resolve_slot relocs isNode (t1 % 16) u2
      let v3 ← resolve_slot relocs isNode (t2 % 16) u3
      let node : RNode :=
        { flags := load_flags reset_gc flagsBytes, u1 := v1, u2 := v2, u3 := v3 }
      load_records reset_gc bin relocs isNode i endPos (acc ++ [node])

/-- Model of `check_hash_magic` (nodedump.c): the fingerprint gate. `MAGIC` must be
the format tag, `RUBY_PLATFORM` and `RUBY_VERSION` must equal the running
environment's constants; a missing or non-string field fails the
`get_hash_strfield` type check. -/
def check_hash_magic (env : RubyEnv) (c : Container) : Except String Unit :=
  match c.magic with
  | none => .error "Hash field MAGIC is not a string"
  | some m =>
    if m ≠ NODEMARSHAL_MAGIC then .error "Bad value of MAGIC signature"
    else
      match c.ruby_platform with
      | none => .error "Hash field RUBY_PLATFORM is not a string"
      | some p =>
        if p ≠ env.platform then .error "Incompatible RUBY_PLATFORM value"
        else
          match c.ruby_version with
          | none => .error "Hash field RUBY_VERSION is not a string"
          | some v =>
            if v ≠ env.version then .error "Incompatible RUBY_VERSION value"
            else .ok ()

/-- The outcome of a successful decode: the resolved tables, the filled
placeholder array (ordinal 0 is the reconstructed root) and the node
count. -/
structure DecodeResult where
  relocs : NODEObjAddresses
  nodes : List RNode
  num_of_nodes : Nat
deriving Repr

/-- Model of `m_nodedump_from_memory` (nodedump.c), from the unmarshalled container
on: read `num_of_nodes`, run the fingerprint gate, store the three
descriptive strings (their corruption checks cannot fire on the typed
`Option String` fields), then resolve symbols, literals, global entries,
ID tables, node placeholders and args records -- in that order -- and
finally stream the node records. The trace component collects every
allocation performed. -/
def m_nodedump_from_memory (env : RubyEnv) (c : Container) : TraceRes DecodeResult :=
  match c.num_of_nodes with
  | none => ([], .error "num_of_nodes not found")
  | some n =>
    match check_hash_magic env c with
    | .error e => ([], .error e)
    | .ok _ =>
      tbind (resolve_syms_ords env c) (fun syms =>
      tbind (resolve_lits_ords c) (fun lits =>
      tbind (resolve_gvars_ords env c syms) (fun gvars =>
      tbind (resolve_idtbls_ords c syms) (fun idtbls =>
      tbind (resolve_nodes_ords c n) (fun placeholders =>
      tbind (resolve_args_ords c syms placeholders.length) (fun args =>
        let relocs : NODEObjAddresses := ⟨syms, lits, gvars, idtbls, args, placeholders⟩
        let isNode : Nat → Bool := fun a => a < placeholders.length
        match c.nodes with
        | none => ([], .error "Cannot find nodes entries")
        | some bin =>
          match load_records false bin relocs isNode n 0 [] with
          | .error e => ([], .error e)
          | .ok nodes => ([], .ok ⟨relocs, nodes, n⟩)))))))

/-- The complete encode-then-decode pipeline on one host graph, composed at
the container level (`Marshal.dump`/`Marshal.load` between them is Ruby's
stdlib serializer for the hash and is outside this repository). -/
def roundtrip_pipeline (env : RubyEnv) (heap : Heap) (rootAdr fuel : Nat) :
    Except String DecodeResult :=
  (m_nodedump_to_hash env heap rootAdr fuel none none none).bind
    (fun c => (m_nodedump_from_memory env c).2)

/-- The two-node host graph with shared substructure used against claims
C1 and C3: the root at address 1 is a `NODE_BLOCK` (slot schema
`{NT_NODE, NT_NULL, NT_NODE}`) whose slots 1 and 3 both point at the same
`NODE_SELF` child at address 2; flag words carry the node kind at bits
8..14 plus the `T_NODE` tag. -/
def heapShared : Heap :=
  { nodes := [(1, ⟨NODE_BLOCK * 256 + T_NODE, 2, 0, 2⟩),
              (2, ⟨NODE_SELF * 256 + T_NODE, 0, 0, 0⟩)],
    idtbls := [], argsinfos := [], gentries := [], id2str := [] }

/-- The same graph without sharing (slot 3 of the root left empty). -/
def heapTree : Heap :=
  { nodes := [(1, ⟨NODE_BLOCK * 256 + T_NODE, 2, 0, 0⟩),
              (2, ⟨NODE_SELF * 256 + T_NODE, 0, 0, 0⟩)],
    idtbls := [], argsinfos := [], gentries := [], id2str := [] }

/-- A concrete running environment for the evaluation theorems. -/
def envConcrete : RubyEnv :=
  ⟨"x86_64-linux", "2.2.1", fun _ => 0, fun _ => 0⟩

/-! ## Lemmas and theorems -/

/-! ### Base85 codec lemmas -/

/-- The alphabet inverts its own encoding table. -/
theorem char_to_val_getD : ∀ d, d < 85 → char_to_val (val_to_char.getD d 0) = some d := by
  decide

/-- The space byte (32) is not in the alphabet. -/
theorem char_to_val_space : char_to_val 32 = none := by decide

/-- The line-feed byte (10) is not in the alphabet. -/
theorem char_to_val_newline : char_to_val 10 = none := by decide

/-- Recognized symbols of an encoded group are exactly its 5 base-85 digits. -/
theorem filterMap_enc_group (v : Nat) :
    (enc_group v).filterMap char_to_val =
      [v / 52200625 % 85, v / 614125 % 85, v / 7225 % 85, v / 85 % 85, v % 85] := by
  have h85 : (0 : Nat) < 85 := by norm_num
  have h0 := char_to_val_getD (v / 52200625 % 85) (Nat.mod_lt _ h85)
  have h1 := char_to_val_getD (v / 614125 % 85) (Nat.mod_lt _ h85)
  have h2 := char_to_val_getD (v / 7225 % 85) (Nat.mod_lt _ h85)
  have h3 := char_to_val_getD (v / 85 % 85) (Nat.mod_lt _ h85)
  have h4 := char_to_val_getD (v % 85) (Nat.mod_lt _ h85)
  simp only [enc_group, List.filterMap_cons, h0, h1, h2, h3, h4, List.filterMap_nil]

/-- The optional line-break pair contributes no recognized symbols. -/
theorem filterMap_nl (c : Prop) [Decidable c] :
    (if c then [10, 32] else [] : List Nat).filterMap char_to_val = [] := by
  split <;> simp [List.filterMap_cons, char_to_val_space, char_to_val_newline]

/-- Base-85 digit decomposition reconstructs any value below `85^5`. -/
theorem base85_digits_sum (v : Nat) (h : v < 4437053125) :
    v / 52200625 % 85 * 52200625 + v / 614125 % 85 * 614125 + v / 7225 % 85 * 7225 +
      v / 85 % 85 * 85 + v % 85 = v := by
  omega

/-- Decoding the digits of one group prepends its 4 bytes. -/
theorem dec_groups_enc_group (v : Nat) (hv : v < 4294967296) (ds : List Nat) :
    dec_groups ((enc_group v).filterMap char_to_val ++ ds) =
      (dec_groups ds).map (fun out =>
        v / 16777216 % 256 :: v / 65536 % 256 :: v / 256 % 256 :: v % 256 :: out) := by
  rw [filterMap_enc_group]
  show dec_groups (_ :: _ :: _ :: _ :: _ :: ds) = _
  conv_lhs => rw [dec_groups]
  rw [base85_digits_sum v (by omega), Nat.mod_eq_of_lt hv]

/-- Decoding the symbols of the encoder's main loop yields the input padded
with zero bytes to a multiple of 4. -/
theorem dec_groups_encode_body : ∀ n inp pos, inp.length ≤ n → (∀ x ∈ inp, x < 256) →
    dec_groups ((base85r_encode_body inp pos).filterMap char_to_val) =
      some (inp ++ List.replicate ((4 - inp.length % 4) % 4) 0) := by
  intro n
  induction n with
  | zero =>
    intro inp pos hlen _
    have : inp = [] := List.eq_nil_of_length_eq_zero (Nat.le_zero.mp hlen)
    subst this
    simp [base85r_encode_body, dec_groups]
  | succ n ih =>
    intro inp pos hlen hbytes
    match inp with
    | [] => simp [base85r_encode_body, dec_groups]
    | [a] =>
      have ha : a < 256 := hbytes a (by simp)
      have hv : a * 16777216 < 4294967296 := by omega
      simp only [base85r_encode_body, List.filterMap_append, filterMap_nl,
        List.append_nil]
      rw [← List.append_nil ((enc_group (a * 16777216)).filterMap char_to_val),
        dec_groups_enc_group _ hv]
      have e1 : a * 16777216 / 16777216 % 256 = a := by omega
      have e2 : a * 16777216 / 65536 % 256 = 0 := by omega
      have e3 : a * 16777216 / 256 % 256 = 0 := by omega
      have e4 : a * 16777216 % 256 = 0 := by omega
      simp [dec_groups, e1, e2, e3, e4, List.replicate, ha]
    | [a, b] =>
      have ha : a < 256 := hbytes a (by simp)
      have hb : b < 256 := hbytes b (by simp)
      have hv : a * 16777216 + b * 65536 < 4294967296 := by omega
      simp only [base85r_encode_body, List.filterMap_append, filterMap_nl,
        List.append_nil]
      rw [← List.append_nil ((enc_group (a * 16777216 + b * 65536)).filterMap char_to_val),
        dec_groups_enc_group _ hv]
      have e1 : (a * 16777216 + b * 65536) / 16777216 % 256 = a := by omega
      have e2 : (a * 16777216 + b * 65536) / 65536 % 256 = b := by omega
      have e3 : (a * 16777216 + b * 65536) / 256 % 256 = 0 := by omega
      have e4 : (a * 16777216 + b * 65536) % 256 = 0 := by omega
      simp [dec_groups, e1, e2, e3, e4, List.replicate, ha, hb]
    | [a, b, c] =>
      have ha : a < 256 := hbytes a (by simp)
      have hb : b < 256 := hbytes b (by simp)
      have hc : c < 256 := hbytes c (by simp)
      have hv : a * 16777216 + b * 65536 + c * 256 < 4294967296 := by omega
      simp only [base85r_encode_body, List.filterMap_append, filterMap_nl,
        List.append_nil]
      rw [← List.append_nil
          ((enc_group (a * 16777216 + b * 65536 + c * 256)).filterMap char_to_val),
        dec_groups_enc_group _ hv]
      have e1 : (a * 16777216 + b * 65536 + c * 256) / 16777216 % 256 = a := by omega
      have e2 : (a * 16777216 + b * 65536 + c * 256) / 65536 % 256 = b := by omega
      have e3 : (a * 16777216 + b * 65536 + c * 256) / 256 % 256 = c := by omega
      have e4 : (a * 16777216 + b * 65536 + c * 256) % 256 = 0 := by omega
      simp [dec_groups, e1, e2, e3, e4, List.replicate, ha, hb, hc]
    | a :: b :: c :: d :: rest =>
      have ha : a < 256 := hbytes a (by simp)
      have hb : b < 256 := hbytes b (by simp)
      have hc : c < 256 := hbytes c (by simp)
      have hd : d < 256 := hbytes d (by simp)
      have hv : a * 16777216 + b * 65536 + c * 256 + d < 4294967296 := by omega
      have hrest : rest.length ≤ n := by
        simp only [List.length_cons] at hlen; omega
      have hbr : ∀ x ∈ rest, x < 256 := fun x hx => hbytes x (by simp [hx])
      simp only [base85r_encode_body, List.filterMap_append, filterMap_nl,
        List.nil_append, List.append_assoc]
      rw [dec_groups_enc_group _ hv, ih rest (pos + 4) hrest hbr]
      have e1 : (a * 16777216 + b * 65536 + c * 256 + d) / 16777216 % 256 = a := by omega
      have e2 : (a * 16777216 + b * 65536 + c * 256 + d) / 65536 % 256 = b := by omega
      have e3 : (a * 16777216 + b * 65536 + c * 256 + d) / 256 % 256 = c := by omega
      have e4 : (a * 16777216 + b * 65536 + c * 256 + d) % 256 = d := by omega
      simp only [e1, e2, e3, e4, List.cons_append, List.length_cons]
      have : (4 - rest.length % 4) % 4 = (4 - (rest.length + 1 + 1 + 1 + 1) % 4) % 4 := by
        omega
      rw [this]
      rfl

/-- A nonempty input produces at least one 5-symbol group. -/
theorem base85r_encode_body_length (inp : List Nat) (pos : Nat) (h : inp ≠ []) :
    5 ≤ (base85r_encode_body inp pos).length := by
  match inp with
  | [] => exact absurd rfl h
  | [a] => simp [base85r_encode_body, enc_group]
  | [a, b] => simp [base85r_encode_body, enc_group]
  | [a, b, c] => simp [base85r_encode_body, enc_group]
  | a :: b :: c :: d :: rest => simp [base85r_encode_body, enc_group]

/-- Decoding the canonical symbol stream (`tail_len` header, then the padded
groups) recovers the input. -/
theorem base85r_decode_core_digits (inp ds : List Nat)
    (h : dec_groups ds = some (inp ++ List.replicate ((4 - inp.length % 4) % 4) 0)) :
    base85r_decode_core (inp.length % 4 :: ds) = .ok inp := by
  have hmod4 : inp.length % 4 < 4 := Nat.mod_lt _ (by norm_num)
  simp only [base85r_decode_core]
  rw [if_neg (by omega), h]
  by_cases hr : inp.length % 4 = 0
  · simp [hr]
  · have hpad : (4 - inp.length % 4) % 4 = 4 - inp.length % 4 := by omega
    simp only [hr, if_false, hpad]
    have hL : (inp ++ List.replicate (4 - inp.length % 4) 0).length
        = inp.length + (4 - inp.length % 4) := by simp
    rw [hL]
    rw [if_neg (by omega)]
    rw [show inp.length + (4 - inp.length % 4) - (4 - inp.length % 4) = inp.length from by omega]
    rw [List.take_left]

/-- The decoder inverts the encoder on any byte string (helper for the
round-trip and tolerance claims). -/
theorem base85r_decode_encode (b : List Nat) (hb : ∀ x ∈ b, x < 256) :
    base85r_decode (base85r_encode b) = .ok b := by
  rcases b with _ | ⟨x, rest⟩
  · rfl
  · have hne : (x :: rest) ≠ ([] : List Nat) := by simp
    have hlen5 := base85r_encode_body_length (x :: rest) 0 hne
    have hmod4 : (x :: rest).length % 4 < 4 := Nat.mod_lt _ (by norm_num)
    have hdr := char_to_val_getD ((x :: rest).length % 4) (by omega)
    have hdg := dec_groups_encode_body (x :: rest).length (x :: rest) 0 le_rfl hb
    show base85r_decode
        (32 :: val_to_char.getD ((x :: rest).length % 4) 0 :: base85r_encode_body (x :: rest) 0)
      = _
    have hL : (32 :: val_to_char.getD ((x :: rest).length % 4) 0 ::
        base85r_encode_body (x :: rest) 0).length = (base85r_encode_body (x :: rest) 0).length + 2 := by
      simp
    unfold base85r_decode
    rw [if_neg (by rw [hL]; omega)]
    simp only [List.filterMap_cons, char_to_val_space, hdr]
    exact base85r_decode_core_digits (x :: rest) _ hdg

/-- Inserting non-alphabet bytes does not change the recognized symbols. -/
theorem insertNonAlpha_filterMap {t s : List Nat} (h : InsertNonAlpha t s) :
    s.filterMap char_to_val = t.filterMap char_to_val := by
  induction h with
  | nil => rfl
  | keep x _ ih => simp only [List.filterMap_cons, ih]
  | ins x hx _ ih => simp only [List.filterMap_cons, hx, ih]

/-- Insertion cannot shorten a string. -/
theorem insertNonAlpha_length {t s : List Nat} (h : InsertNonAlpha t s) :
    t.length ≤ s.length := by
  induction h with
  | nil => exact le_rfl
  | keep x _ ih => simp only [List.length_cons]; omega
  | ins x _ _ ih => simp only [List.length_cons]; omega

/-- Helper: on inputs passing the length gate, the decoder is a function of
the recognized-symbol subsequence alone. -/
theorem base85r_decode_eq_core (s : List Nat) (h : ¬(s.length < 6 ∧ s.length ≠ 2)) :
    base85r_decode s = base85r_decode_core (s.filterMap char_to_val) := by
  unfold base85r_decode
  rw [if_neg h]

/-! ### Claim C7: text codec round-trip -/

/-- Claim C7: for every byte string `b` (of any length), decoding the encoding
returns `b`; for the empty string, `base85r_encode` returns a 2-byte output
and `base85r_decode` of that output returns the empty string. -/
theorem C7_base85_roundtrip (b : List Nat) (hb : ∀ x ∈ b, x < 256) :
    base85r_decode (base85r_encode b) = .ok b ∧
    (base85r_encode []).length = 2 ∧
    base85r_decode (base85r_encode []) = .ok [] :=
  ⟨base85r_decode_encode b hb, rfl, rfl⟩

/-- Witness for C7 at the concrete byte string `[3, 200, 7]`. -/
theorem C7_base85_roundtrip_witness :
    base85r_decode (base85r_encode [3, 200, 7]) = .ok [3, 200, 7] ∧
    (base85r_encode []).length = 2 ∧
    base85r_decode (base85r_encode []) = .ok [] :=
  C7_base85_roundtrip [3, 200, 7] (by decide)

/-! ### Claim C8: text codec tolerance to inserted non-alphabet bytes -/

/-- Claim C8, counterexample: the claim fails for the empty byte string.
`base85r_encode [] = [32, 65]` decodes to `[]`, but inserting one single
space (a non-alphabet byte) yields `[32, 65, 32]`, which the decoder
rejects: the length gate `inp_len < 6 && inp_len != 2` fires before any
non-alphabet byte is skipped. -/
theorem C8_insert_empty_counterexample :
    InsertNonAlpha (base85r_encode []) [32, 65, 32] ∧
    base85r_decode (base85r_encode []) = .ok [] ∧
    base85r_decode [32, 65, 32] = .error "base85r_decode: input string is too short" := by
  refine ⟨?_, rfl, rfl⟩
  show InsertNonAlpha [32, 65] [32, 65, 32]
  exact .keep 32 (.keep 65 (.ins 32 rfl .nil))

/-- Claim C8, amended: for every **nonempty** byte string `b`, inserting
arbitrary non-alphabet bytes (whitespace, line breaks, ...) anywhere into
`base85r_encode b` does not change the result of `base85r_decode`: the
decoder skips every non-alphabet byte and still decodes to `b`. (For the
empty string the original claim fails; it would hold only when the modified
string keeps length 2 or reaches length at least 6.) -/
theorem C8_insert_tolerance (b s : List Nat) (hb0 : b ≠ []) (hb : ∀ x ∈ b, x < 256)
    (hins : InsertNonAlpha (base85r_encode b) s) :
    base85r_decode s = .ok b := by
  have hfm := insertNonAlpha_filterMap hins
  have hlen := insertNonAlpha_length hins
  have hlen5 : 5 ≤ (base85r_encode_body b 0).length := base85r_encode_body_length b 0 hb0
  have hlen7 : 7 ≤ (base85r_encode b).length := by
    simp only [base85r_encode, List.length_cons]; omega
  have hgs : ¬(s.length < 6 ∧ s.length ≠ 2) := by omega
  have hge : ¬((base85r_encode b).length < 6 ∧ (base85r_encode b).length ≠ 2) := by omega
  rw [base85r_decode_eq_core s hgs, hfm, ← base85r_decode_eq_core _ hge,
    base85r_decode_encode b hb]

/-- Witness for the amended C8: a line-feed byte inserted into the encoding
of `[7]` decodes to `[7]` all the same. -/
theorem C8_insert_tolerance_witness :
    base85r_decode [32, 66, 10, 67, 86, 84, 36, 72] = .ok [7] := by
  refine C8_insert_tolerance [7] [32, 66, 10, 67, 86, 84, 36, 72] (by decide) (by decide) ?_
  show InsertNonAlpha [32, 66, 67, 86, 84, 36, 72] [32, 66, 10, 67, 86, 84, 36, 72]
  exact .keep 32 (.keep 66 (.ins 10 rfl
    (.keep 67 (.keep 86 (.keep 84 (.keep 36 (.keep 72 .nil)))))))

/-! ### Byte serialization of VALUEs (`value_to_bin` / `bin_to_value`) -/

/-- Folding the full big-endian digit list of `v` accumulates `v % 2^(8w)`. -/
theorem foldl_bytes_digits : ∀ (w a v : Nat),
    ((List.range w).reverse.map (fun i => v / 2 ^ (8 * i) % 256)).foldl
        (fun acc b => acc * 256 + b) a
      = a * 2 ^ (8 * w) + v % 2 ^ (8 * w) := by
  intro w
  induction w with
  | zero => intro a v; simp [Nat.mod_one]
  | succ w ih =>
    intro a v
    rw [List.range_succ, List.reverse_append]
    simp only [List.reverse_cons, List.reverse_nil, List.nil_append, List.map_cons,
      List.map_append, List.singleton_append, List.foldl_cons]
    rw [ih]
    have hsplit : v % 2 ^ (8 * (w + 1)) = v % 2 ^ (8 * w) + 2 ^ (8 * w) * (v / 2 ^ (8 * w) % 256) := by
      rw [show 8 * (w + 1) = 8 * w + 8 from by ring, pow_add]
      exact Nat.mod_mul
    rw [hsplit, show 8 * (w + 1) = 8 * w + 8 from by ring, pow_add]
    ring

/-- Dropping the suppressed leading zero bytes does not change the
accumulated value. -/
theorem foldl_dropWhile_zero (l : List Nat) :
    (l.dropWhile (fun b => b == 0)).foldl (fun acc b => acc * 256 + b) 0
      = l.foldl (fun acc b => acc * 256 + b) 0 := by
  induction l with
  | nil => rfl
  | cons a l ih =>
    by_cases ha : a = 0
    · subst ha
      simpa [List.dropWhile] using ih
    · have hb : (a == 0) = false := by simpa using ha
      simp [List.dropWhile, hb]

/-- Model of `bin_to_value` inverts `value_to_bin` for any value fitting in `w` bytes. -/
theorem bin_to_value_value_to_bin (w v : Nat) (h : v < 2 ^ (8 * w)) :
    bin_to_value (value_to_bin w v) = v := by
  unfold bin_to_value value_to_bin
  rw [foldl_dropWhile_zero, foldl_bytes_digits, Nat.mod_eq_of_lt h]
  ring

/-! ### Claim C10: flag word round-trip -/

/-- Claim C10: for any node flag word, the dump/load pipeline reconstructs the
flag word with its 5 lowest bits cleared, bitwise-or'ed with `T_NODE`
(the encoder stores `flags >> 5`, the decoder restores
`(stored << 5) | T_NODE`); on Ruby 1.9 builds (`RESET_GC_FLAGS`) the two
lowest bits of the stored value are additionally cleared before the shift. -/
theorem C10_flags_roundtrip (flags : Nat) (h : flags < 2 ^ 64) :
    load_flags false (dump_flags flags) = (flags / 32 * 32) ||| T_NODE ∧
    load_flags true (dump_flags flags) = (flags / 32 / 4 * 4 * 32) ||| T_NODE := by
  have hv : flags / 32 < 2 ^ (8 * 8) := lt_of_le_of_lt (Nat.div_le_self _ _) (by norm_num at h ⊢; omega)
  unfold load_flags dump_flags
  rw [bin_to_value_value_to_bin 8 (flags / 32) hv]
  constructor
  · simp [Nat.shiftLeft_eq]
  · simp [Nat.shiftLeft_eq]

/-- Witness for C10 at the concrete flag word 283 (a `NODE_BLOCK` header). -/
theorem C10_flags_roundtrip_witness :
    load_flags false (dump_flags 283) = (283 / 32 * 32) ||| T_NODE ∧
    load_flags true (dump_flags 283) = (283 / 32 / 4 * 4 * 32) ||| T_NODE :=
  C10_flags_roundtrip 283 (by norm_num)

/-! ### Claim C2: dedup table ordinal assignment -/

/-- Looking a key up in the enumerated association list finds its first
occurrence, offset by the starting ordinal. -/
theorem lookup_mkIds {kk : Type} [BEq kk] [LawfulBEq kk] :
    ∀ (L : List kk) (n : Nat) (k : kk), (mkIds L n).lookup k = (ordOf L k).map (· + n) := by
  intro L
  induction L with
  | nil => intro n k; rfl
  | cons a l ih =>
    intro n k
    by_cases h : k = a
    · subst h
      simp [mkIds, ordOf, List.lookup_cons]
    · have h1 : (k == a) = false := by simpa using h
      have h2 : (a == k) = false := by simpa using Ne.symm h
      simp only [mkIds, ordOf, List.lookup_cons, h1, h2, if_false]
      rw [ih (n + 1) k]
      cases ordOf l k
      · simp
      · simp
        omega

/-- A key has no first occurrence exactly when it is not contained. -/
theorem ordOf_none_iff {kk : Type} [BEq kk] [LawfulBEq kk] :
    ∀ (L : List kk) (k : kk), ordOf L k = none ↔ L.contains k = false := by
  intro L k
  induction L with
  | nil => simp [ordOf]
  | cons a l ih =>
    by_cases h : a = k
    · subst h
      simp [ordOf, List.contains_cons]
    · have h1 : (a == k) = false := by simpa using h
      have h2 : (k == a) = false := by simpa using Ne.symm h
      simp only [ordOf, List.contains_cons, h1, h2, if_false, Bool.false_or]
      rw [← ih]
      cases ordOf l k <;> simp

/-- Appending a fresh key extends the enumeration at ordinal `n + |L|`. -/
theorem mkIds_append {kk : Type} :
    ∀ (L : List kk) (k : kk) (n : Nat),
      mkIds (L ++ [k]) n = mkIds L n ++ [(k, n + L.length)] := by
  intro L
  induction L with
  | nil => intro k n; simp [mkIds]
  | cons a l ih =>
    intro k n
    simp only [List.cons_append, mkIds, List.append_eq, ih, List.length_cons]
    rw [show n + 1 + l.length = n + (l.length + 1) from by omega]

/-- One `addEntry` step preserves the enumeration invariant, extending the
first-seen key list exactly when the key is new. -/
theorem addEntry_step {kk vv : Type} [BEq kk] [LawfulBEq kk]
    (t : LeafTableInfo kk vv) (k : kk) (v : vv) (L : List kk)
    (hids : t.ids = mkIds L 0) (hpos : t.pos = L.length) :
    (LeafTableInfo_addEntry t k v).2.ids
        = mkIds (if L.contains k then L else L ++ [k]) 0 ∧
    (LeafTableInfo_addEntry t k v).2.pos
        = (if L.contains k then L else L ++ [k]).length := by
  have hlook : t.ids.lookup k = (ordOf L k).map (· + 0) := by rw [hids, lookup_mkIds]
  cases hc : ordOf L k with
  | none =>
    have h0 : t.ids.lookup k = none := by rw [hlook, hc]; rfl
    have hcon : L.contains k = false := (ordOf_none_iff L k).1 hc
    simp only [LeafTableInfo_addEntry, h0, hcon, Bool.false_eq_true, if_false]
    constructor
    · show hashAset t.ids k t.pos = _
      unfold hashAset
      rw [h0]
      simp [hids, hpos, mkIds_append]
    · simp [hpos]
  | some i =>
    have h0 : t.ids.lookup k = some i := by rw [hlook, hc]; simp
    have hcon : L.contains k = true := by
      cases hcc : L.contains k
      · exact absurd ((ordOf_none_iff L k).2 hcc) (by simp [hc])
      · rfl
    simp only [LeafTableInfo_addEntry, h0, hcon, if_true]
    exact ⟨hids, hpos⟩

/-- Any insertion run from a table satisfying the enumeration invariant
yields the enumeration of its first-seen key list. -/
theorem runInserts_inv {kk vv : Type} [BEq kk] [LawfulBEq kk] :
    ∀ (seq : List (kk × vv)) (t : LeafTableInfo kk vv) (L : List kk),
      t.ids = mkIds L 0 → t.pos = L.length →
      (seq.foldl (fun t p => (LeafTableInfo_addEntry t p.1 p.2).2) t).ids
          = mkIds (firstSeenFrom L (seq.map Prod.fst)) 0 ∧
      (seq.foldl (fun t p => (LeafTableInfo_addEntry t p.1 p.2).2) t).pos
          = (firstSeenFrom L (seq.map Prod.fst)).length := by
  intro seq
  induction seq with
  | nil =>
    intro t L h1 h2
    exact ⟨by simpa [firstSeenFrom] using h1, by simpa [firstSeenFrom] using h2⟩
  | cons p rest ih =>
    intro t L h1 h2
    have hstep := addEntry_step t p.1 p.2 L h1 h2
    have hrec := ih ((LeafTableInfo_addEntry t p.1 p.2).2)
      (if L.contains p.1 then L else L ++ [p.1]) hstep.1 hstep.2
    simpa [firstSeenFrom, List.foldl_cons] using hrec

/-- Model of `keyToID` after any insertion sequence returns the position of the key's
first insertion among the distinct keys. -/
theorem keyToID_runInserts {kk vv : Type} [BEq kk] [LawfulBEq kk]
    (seq : List (kk × vv)) (k : kk) :
    LeafTableInfo_keyToID (runInserts seq) k = ordOf (firstSeen (seq.map Prod.fst)) k := by
  have h := (runInserts_inv seq LeafTableInfo_init [] rfl rfl).1
  unfold LeafTableInfo_keyToID runInserts firstSeen at *
  rw [h, lookup_mkIds]
  cases ordOf (firstSeenFrom [] (seq.map Prod.fst)) k <;> simp

/-- Claim C2: `addEntry` assigns ordinals `0, 1, 2, ...` in order of first
insertion of each distinct key (the ordinal of `k` is the position of `k`'s
first insertion among the distinct keys, untouched by later insertions of
other keys); re-inserting a present key returns the existing ordinal and
leaves the table unchanged; and the identifiers `"a"` then `"b"` receive
ordinals 0 and 1, with re-insertion of `"a"` yielding 0 again. -/
theorem C2_addEntry_ordinals {kk vv : Type} [BEq kk] [LawfulBEq kk]
    (seq : List (kk × vv)) (k : kk) (v : vv) (i : Nat) :
    LeafTableInfo_keyToID (runInserts seq) k = ordOf (firstSeen (seq.map Prod.fst)) k ∧
    (LeafTableInfo_keyToID (runInserts seq) k = some i →
      LeafTableInfo_addEntry (runInserts seq) k v = (i, runInserts seq)) ∧
    (let id2str : Nat → Option String :=
       fun n => if n = 10 then some "a" else if n = 11 then some "b" else none
     let r1 := LeafTableInfo_addIDEntry id2str LeafTableInfo_init 10
     let r2 := LeafTableInfo_addIDEntry id2str r1.2 11
     let r3 := LeafTableInfo_addIDEntry id2str r2.2 10
     r1.1 = 0 ∧ r2.1 = 1 ∧ r3.1 = 0 ∧ r3.2 = r2.2) := by
  refine ⟨keyToID_runInserts seq k, ?_, by decide⟩
  intro h
  have h0 : (runInserts seq).ids.lookup k = some i := h
  simp only [LeafTableInfo_addEntry, h0]

/-- Witness for C2: re-inserting key 5 after a later key 9 was added still
returns ordinal 0 and leaves the table untouched. -/
theorem C2_addEntry_ordinals_witness :
    LeafTableInfo_addEntry (runInserts [(5, SymVal.num 5), (9, SymVal.num 9)]) 5 (SymVal.num 7)
      = (0, runInserts [(5, SymVal.num 5), (9, SymVal.num 9)]) :=
  (C2_addEntry_ordinals [(5, SymVal.num 5), (9, SymVal.num 9)] 5 (SymVal.num 7) 0).2.1 (by decide)

/-! ### Claim C9: startup schema self-check -/

/-- Claim C9: every row of the node-kind schema table agrees with the
hand-maintained reference classification wherever the latter defines the
kind — the startup self-check raises for no table entry and the check loop
of `init_nodes_table` completes — while any row whose two classifications
differ makes `check_row` (and hence initialization) abort with the
`"Bad node entry in the initial table"` error. -/
theorem C9_schema_self_check :
    ((List.range nodes_child_info.length).all
        fun pos => (check_nodes_child_info pos).isOk) = true ∧
    init_nodes_table_checks = .ok () ∧
    (∀ row : Nat × Nat × Nat × Nat, ∀ v : Bool × Bool × Bool,
      ruby22_isval row.1 = some v →
      v ≠ (row.2.1 == NT_NODE || row.2.1 == NT_VALUE,
           row.2.2.1 == NT_NODE || row.2.2.1 == NT_VALUE,
           row.2.2.2 == NT_NODE || row.2.2.2 == NT_VALUE) →
      check_row row = .error "Bad node entry in the initial table") := by
  refine ⟨by decide, by rfl, ?_⟩
  intro row v hv hne
  unfold check_row
  rw [hv]
  exact if_neg hne

/-- Witness for C9: a corrupted `NODE_IF` row (all slots `NT_NULL`) would
abort initialization. -/
theorem C9_schema_self_check_witness :
    check_row (NODE_IF, NT_NULL, NT_NULL, NT_NULL)
      = .error "Bad node entry in the initial table" :=
  (C9_schema_self_check).2.2 (NODE_IF, NT_NULL, NT_NULL, NT_NULL)
    (true, true, true) (by decide) (by decide)

/-! ### Claims C1 and C3: node count vs. distinct reachable nodes -/

/-- Claim C3, code evaluated at the failing input: on the shared-substructure
graph `heapShared` (2 distinct nodes, the child reachable through two
parent slots), the walker deduplicates the node table -- the child gets
exactly one ordinal (`nodes.ids = [(1, 0), (2, 1)]`) and `dump_nodes` emits
2 records -- but `count_num_of_nodes` returns 3 (traversal visits), and
that 3 is what `m_nodedump_to_hash` stores as `num_of_nodes`,
contradicting the claimed "equals the number of distinct reachable nodes"
and the code's own documentation of `num_of_nodes` ("number of nodes in
the nodes field"). -/
theorem C3_node_count_is_visit_count :
    (count_num_of_nodes 100 heapShared 1 1 NODEInfo_init).map
        (fun r => (r.1, r.2.nodes.ids, r.2.nodes.vals.length)) =
      .ok (3, [(1, 0), (2, 1)], 2) ∧
    (m_nodedump_to_hash envConcrete heapShared 1 100 none none none).map
        (fun c => c.num_of_nodes) = .ok (some 3) ∧
    heapShared.nodes.length = 2 :=
  ⟨rfl, rfl, rfl⟩

/-- Claim C1, code evaluated at the failing input: the encode-decode pipeline
reconstructs an isomorphic graph for the 2-node tree (`heapTree`: root at
placeholder 0 with its kind and slots preserved, child at placeholder 1),
but on the same graph with shared substructure (`heapShared`) the decoder
fails on the encoder's own output: `num_of_nodes` (3 visits) exceeds the
records written (2), so the record loop runs off the end of the byte
string and raises -- no isomorphic reconstruction exists for the
shared-substructure case the claim includes. -/
theorem C1_roundtrip_tree_ok_shared_fails :
    (roundtrip_pipeline envConcrete heapTree 1 100).map
        (fun r => (r.num_of_nodes, r.nodes)) =
      .ok (2, [⟨NODE_BLOCK * 256 + T_NODE, 1, 0, 0⟩,
               ⟨NODE_SELF * 256 + T_NODE, 0, 0, 0⟩]) ∧
    roundtrip_pipeline envConcrete heapShared 1 100 =
      .error "Nodes binary dump is too short" :=
  ⟨rfl, rfl⟩

/-! ### Claim C4: fingerprint gate before any allocation -/

/-- A passing fingerprint gate pins all three container fields. -/
theorem check_hash_magic_ok_fields (env : RubyEnv) (c : Container)
    (h : check_hash_magic env c = .ok ()) :
    c.magic = some NODEMARSHAL_MAGIC ∧ c.ruby_platform = some env.platform ∧
    c.ruby_version = some env.version := by
  unfold check_hash_magic at h
  split at h
  · exact absurd h (by simp)
  next m hm =>
    split at h
    · exact absurd h (by simp)
    next hmv =>
      split at h
      · exact absurd h (by simp)
      next p hp =>
        split at h
        · exact absurd h (by simp)
        next hpv =>
          split at h
          · exact absurd h (by simp)
          next v hv =>
            split at h
            · exact absurd h (by simp)
            next hvv =>
              rw [not_not] at hmv hpv hvv
              subst hmv hpv hvv
              exact ⟨hm, hp, hv⟩

/-- Claim C4: whenever the container's fingerprint (MAGIC tag,
`RUBY_PLATFORM` or `RUBY_VERSION`) differs from the running environment's,
`m_nodedump_from_memory` fails with an empty allocation trace: no table and
no node placeholder is allocated, so no partially constructed object graph
is observable. -/
theorem C4_fingerprint_gate (env : RubyEnv) (c : Container)
    (h : c.magic ≠ some NODEMARSHAL_MAGIC ∨ c.ruby_platform ≠ some env.platform ∨
         c.ruby_version ≠ some env.version) :
    (m_nodedump_from_memory env c).1 = [] ∧
    ∃ e, (m_nodedump_from_memory env c).2 = .error e := by
  unfold m_nodedump_from_memory
  cases hn : c.num_of_nodes with
  | none => exact ⟨rfl, _, rfl⟩
  | some n =>
    cases hc : check_hash_magic env c with
    | error e => exact ⟨rfl, e, rfl⟩
    | ok u =>
      cases u
      have hf := check_hash_magic_ok_fields env c hc
      rcases h with h | h | h
      · exact absurd hf.1 h
      · exact absurd hf.2.1 h
      · exact absurd hf.2.2 h

/-- Witness for C4: a container carrying a wrong `RUBY_VERSION` is rejected
with nothing allocated. -/
theorem C4_fingerprint_gate_witness :
    (m_nodedump_from_memory envConcrete
        { magic := some NODEMARSHAL_MAGIC
          ruby_platform := some "x86_64-linux"
          ruby_version := some "2.3.0"
          literals := some []
          symbols := some []
          global_entries := some []
          id_tables := some []
          args := some []
          nodes := some [0]
          num_of_nodes := some 0
          nodename := none
          filename := none
          filepath := none }).1 = [] ∧
    ∃ e, (m_nodedump_from_memory envConcrete
        { magic := some NODEMARSHAL_MAGIC
          ruby_platform := some "x86_64-linux"
          ruby_version := some "2.3.0"
          literals := some []
          symbols := some []
          global_entries := some []
          id_tables := some []
          args := some []
          nodes := some [0]
          num_of_nodes := some 0
          nodename := none
          filename := none
          filepath := none }).2 = .error e :=
  C4_fingerprint_gate envConcrete _ (Or.inr (Or.inr (by simp [envConcrete])))

/-! ### Claim C5: decoder range and type checks -/

/-- Claim C5: in the slot-resolution switch of `load_nodes_from_str`, every
table location code rejects an out-of-range ordinal with a fatal error;
`VL_NODE` additionally rejects a resolved placeholder failing the node type
check; in-range ordinals resolve to the corresponding table entry (the
checked placeholder ordinal for the pointer tables); no branch substitutes
a default. -/
theorem C5_decoder_range_checks (relocs : NODEObjAddresses) (isNode : Nat → Bool)
    (u : Nat) :
    (u ≥ relocs.nodes_adr.length →
      resolve_slot relocs isNode VL_NODE u = .error "Cannot resolve VL_NODE entry") ∧
    (u < relocs.nodes_adr.length → isNode u = false →
      resolve_slot relocs isNode VL_NODE u
        = .error "load_nodes_from_str: nodes memory corrupted") ∧
    (u < relocs.nodes_adr.length → isNode u = true →
      resolve_slot relocs isNode VL_NODE u = .ok u) ∧
    (u ≥ relocs.syms_adr.length →
      resolve_slot relocs isNode VL_ID u = .error "Cannot resolve VL_ID entry") ∧
    (u < relocs.syms_adr.length →
      resolve_slot relocs isNode VL_ID u = .ok (relocs.syms_adr.getD u 0)) ∧
    (u ≥ relocs.gvars_adr.length →
      resolve_slot relocs isNode VL_GVAR u = .error "Cannot resolve VL_GVAR entry") ∧
    (u < relocs.gvars_adr.length →
      resolve_slot relocs isNode VL_GVAR u = .ok (relocs.gvars_adr.getD u 0)) ∧
    (u ≥ relocs.idtbls_adr.length →
      resolve_slot relocs isNode VL_IDTABLE u = .error "Cannot resolve VL_IDTABLE entry") ∧
    (u < relocs.idtbls_adr.length →
      resolve_slot relocs isNode VL_IDTABLE u = .ok u) ∧
    (u ≥ relocs.args_adr.length →
      resolve_slot relocs isNode VL_ARGS u = .error "Cannot resolve VL_ARGS entry") ∧
    (u < relocs.args_adr.length →
      resolve_slot relocs isNode VL_ARGS u = .ok u) ∧
    (u ≥ relocs.lits_adr.length →
      resolve_slot relocs isNode VL_LIT u = .error "Cannot resolve VL_LIT entry") ∧
    (u < relocs.lits_adr.length →
      resolve_slot relocs isNode VL_LIT u = .ok (relocs.lits_adr.getD u 0)) := by
  refine ⟨?_, ?_, ?_, ?_, ?_, ?_, ?_, ?_, ?_, ?_, ?_, ?_, ?_⟩
  · intro h
    simp only [resolve_slot]
    norm_num [VL_RAW, VL_NODE]
    intro hlt
    omega
  · intro h h2
    simp only [resolve_slot]
    norm_num [VL_RAW, VL_NODE]
    rw [if_neg (by omega), if_pos (by simp [h2])]
  · intro h h2
    simp only [resolve_slot]
    norm_num [VL_RAW, VL_NODE]
    rw [if_neg (by omega), if_neg (by simp [h2])]
  · intro h
    simp only [resolve_slot]
    norm_num [VL_RAW, VL_NODE, VL_ID]
    intro hlt
    omega
  · intro h
    simp only [resolve_slot]
    norm_num [VL_RAW, VL_NODE, VL_ID]
    intro hle
    omega
  · intro h
    simp only [resolve_slot]
    norm_num [VL_RAW, VL_NODE, VL_ID, VL_GVAR]
    intro hlt
    omega
  · intro h
    simp only [resolve_slot]
    norm_num [VL_RAW, VL_NODE, VL_ID, VL_GVAR]
    intro hle
    omega
  · intro h
    simp only [resolve_slot]
    norm_num [VL_RAW, VL_NODE, VL_ID, VL_GVAR, VL_IDTABLE]
    intro hlt
    omega
  · intro h
    simp only [resolve_slot]
    norm_num [VL_RAW, VL_NODE, VL_ID, VL_GVAR, VL_IDTABLE]
    intro hle
    omega
  · intro h
    simp only [resolve_slot]
    norm_num [VL_RAW, VL_NODE, VL_ID, VL_GVAR, VL_IDTABLE, VL_ARGS]
    intro hlt
    omega
  · intro h
    simp only [resolve_slot]
    norm_num [VL_RAW, VL_NODE, VL_ID, VL_GVAR, VL_IDTABLE, VL_ARGS]
    intro hle
    omega
  · intro h
    simp only [resolve_slot]
    norm_num [VL_RAW, VL_NODE, VL_ID, VL_GVAR, VL_IDTABLE, VL_ARGS, VL_LIT]
    intro hlt
    omega
  · intro h
    simp only [resolve_slot]
    norm_num [VL_RAW, VL_NODE, VL_ID, VL_GVAR, VL_IDTABLE, VL_ARGS, VL_LIT]
    intro hle
    omega

/-- Witness for C5 at a one-entry table set. -/
theorem C5_decoder_range_checks_witness :
    resolve_slot ⟨[7], [9], [], [], [], [⟨27, 0, 0, 0⟩]⟩ (fun _ => true) VL_NODE 5
      = .error "Cannot resolve VL_NODE entry" ∧
    resolve_slot ⟨[7], [9], [], [], [], [⟨27, 0, 0, 0⟩]⟩ (fun _ => true) VL_ID 0
      = .ok 7 :=
  ⟨(C5_decoder_range_checks ⟨[7], [9], [], [], [], [⟨27, 0, 0, 0⟩]⟩ (fun _ => true) 5).1
      (by norm_num),
   by
     have := (C5_decoder_range_checks ⟨[7], [9], [], [], [], [⟨27, 0, 0, 0⟩]⟩
       (fun _ => true) 0).2.2.2.2.1 (by norm_num)
     simpa using this⟩

/-! ### Claim C6: the 0/"empty" and 1/"self" sentinels -/

/-- Claim C6: a node-reference slot holding 0 is emitted as a raw inline value
(`VL_RAW`, zero payload bytes), and for a `NODE_ATTRASGN` node a first-slot
value of exactly 1 is emitted as a raw inline value `1` rather than a
node-table lookup; on decode `VL_RAW` passes the value through unchanged
and the payloads decode back to exactly 0 and 1. -/
theorem C6_sentinel_values (info : NODEInfo) (heap : Heap) (node : RNode) (cid : Nat)
    (hty : nd_type node = NODE_ATTRASGN) :
    dump_node_value info heap node NT_NODE 0 cid = .ok (VL_RAW, []) ∧
    dump_node_value info heap node NT_NODE 1 1 = .ok (VL_RAW + 16 * 1, [1]) ∧
    (∀ (relocs : NODEObjAddresses) (isNode : Nat → Bool) (v : Nat),
      resolve_slot relocs isNode VL_RAW v = .ok v) ∧
    bin_to_value [] = 0 ∧ bin_to_value [1] = 1 := by
  refine ⟨?_, ?_, fun relocs isNode v => rfl, rfl, rfl⟩
  · rfl
  · unfold dump_node_value
    rw [if_neg (by norm_num [NT_NODE, NT_NULL, NT_LONG]), if_pos rfl]
    rw [if_neg (by norm_num), if_pos (by exact ⟨hty, rfl, rfl⟩)]
    rfl

/-- Witness for C6 at a concrete `NODE_ATTRASGN` node. -/
theorem C6_sentinel_values_witness :
    dump_node_value NODEInfo_init heapShared ⟨NODE_ATTRASGN * 256 + T_NODE, 1, 0, 0⟩ NT_NODE 0 2
      = .ok (VL_RAW, []) ∧
    dump_node_value NODEInfo_init heapShared ⟨NODE_ATTRASGN * 256 + T_NODE, 1, 0, 0⟩ NT_NODE 1 1
      = .ok (VL_RAW + 16 * 1, [1]) :=
  ⟨(C6_sentinel_values NODEInfo_init heapShared _ 2 (by decide)).1,
   (C6_sentinel_values NODEInfo_init heapShared _ 1 (by decide)).2.1⟩

end NodeMarshal
